import Mathlib

/-!
A shallow embedding of `pg_variables.c`.

This file models the transactional versioning core of the `pg_variables`
extension (file `src/pg_variables.c`): packages and variables with
per-object state histories, the per-nesting-level changes stack, and the
commit/rollback processing driven by the host transaction manager.

Modelling conventions:
* Hash tables (`packagesHash`, `varHashRegular`, `varHashTransact`) become
  association lists keyed by the name; `HASH_ENTER` appends a fresh entry,
  `HASH_REMOVE` deletes it.
* The `dlist` state histories become Lean lists, head = current state
  (`GetActualState`).
* Scalar payloads (`ScalarVar`: a datum plus an `is_null` flag) become
  `Option Int`; record payloads (the record hash of tuples) become
  `List Int`.  `datumCopy`/`copyValue` is plain copying of the value.
* Memory contexts are not modelled; deleting `hctxRegular` empties the
  regular variable map, which is exactly what the code relies on
  (`makePackHTAB` recreates it empty on rollback/resurrection).
* `GetCurrentTransactionNestLevel()` is carried in the session as `level`
  (an `Int`, as in C); subtransaction callbacks run before the host
  decrements the level, as in PostgreSQL.
* `ereport(ERROR)` becomes an `Except`-style error result carrying the
  session as it stands at the moment of the error.
* The changes stack holds non-owning references to objects; in the model a
  frame stores the object's names.  Where the C code would dereference a
  pointer to an object that has already been removed from its hash table
  (freed memory), the model skips the entry; those spots are marked with a
  comment.
-/

set_option autoImplicit false

namespace PgVariables

/-- Names of packages and variables (the C code uses `char[NAMEDATALEN]`). -/
abbrev Name := String

/-- `NAMEDATALEN` from PostgreSQL: names are limited to 63 bytes + NUL. -/
def NAMEDATALEN : Nat := 64

/-- `RECORDOID`, the type oid of composite values. -/
def RECORDOID : Nat := 2249

/-- Payload of one variable state: the `union { ScalarVar; RecordVar }`
of `VarState`.  A scalar is a datum or SQL NULL; a record variable's
tuple store is a list of tuples. -/
inductive VarValue where
  | scalar (value : Option Int)
  | record (tuples : List Int)
deriving DecidableEq, Repr

/-- One entry of a variable's state history (`VarState` in C): the
`TransState` header (creation nesting level and validity flag) plus the
payload. -/
structure VarState where
  level : Int
  is_valid : Bool
  value : VarValue
deriving DecidableEq, Repr

/-- One entry of a package's state history (`PackState` in C). -/
structure PackState where
  level : Int
  is_valid : Bool
deriving DecidableEq, Repr

/-- A variable (`Variable` in C): declared type oid, the
immutable-after-creation transactional flag, and the state history
(head = current state). -/
structure Variable where
  typid : Nat
  is_transactional : Bool
  states : List VarState
deriving DecidableEq, Repr

/-- A package (`Package` in C): the two variable hash tables and the
package's own state history (head = current state). -/
structure Package where
  varHashRegular : List (Name × Variable)
  varHashTransact : List (Name × Variable)
  packHistory : List PackState
deriving DecidableEq, Repr

/-- One frame of the changes stack (`ChangesStackNode` in C): the lists of
variables and packages changed at one nesting level.  Variables are
identified by (package name, variable name); `dlist_push_head` prepends. -/
structure ChangesStackNode where
  changedVarsList : List (Name × Name)
  changedPacksList : List Name
deriving DecidableEq, Repr

/-- The module-global state of `pg_variables.c` plus the host's current
transaction nesting level: `packagesHash`, `changesStack` (head = current
level's frame), the `LastPackage`/`LastVariable` cache (stored by name;
`LastVariable` always belongs to `LastPackage`), and
`GetCurrentTransactionNestLevel()`. -/
structure Session where
  packagesHash : Option (List (Name × Package))
  changesStack : Option (List ChangesStackNode)
  lastPackage : Option Name
  lastVariable : Option Name
  level : Int
deriving DecidableEq, Repr

/-- The initial state: no hash, no stack, empty cache, top-level
transaction (nesting level 1). -/
def initialSession : Session :=
  { packagesHash := none, changesStack := none,
    lastPackage := none, lastVariable := none, level := 1 }

/-- The empty changes-stack frame pushed by `pushChangesStack`. -/
def emptyFrame : ChangesStackNode := { changedVarsList := [], changedPacksList := [] }

/-! ## Association lists standing in for the hash tables -/

/-- `hash_search(... HASH_FIND ...)`. -/
def aget {α : Type} (k : Name) : List (Name × α) → Option α
  | [] => none
  | (k', a) :: r => if k' = k then some a else aget k r

/-- `hash_search(... HASH_ENTER ...)` when the key is new appends an entry;
on an existing key it replaces the payload. -/
def aset {α : Type} (k : Name) (a : α) : List (Name × α) → List (Name × α)
  | [] => [(k, a)]
  | (k', a') :: r => if k' = k then (k, a) :: r else (k', a') :: aset k a r

/-- `hash_search(... HASH_REMOVE ...)`. -/
def adel {α : Type} (k : Name) : List (Name × α) → List (Name × α)
  | [] => []
  | (k', a') :: r => if k' = k then r else (k', a') :: adel k r

/-- In-place update of the entry at key `k` (mutation through a pointer
obtained from `hash_search`). -/
def amod {α : Type} (k : Name) (f : α → α) : List (Name × α) → List (Name × α)
  | [] => []
  | (k', a') :: r => if k' = k then (k', f a') :: r else (k', a') :: amod k f r

/-! ## State accessors (the `GetActualState` / `GetActualValue` macros) -/

/-- `GetActualState` for a variable: the head history entry.  An empty
history is an invariant violation in C; the model returns a junk state. -/
def headVarState (v : Variable) : VarState :=
  v.states.headD { level := 0, is_valid := false, value := .scalar none }

/-- `GetActualState` for a package. -/
def headPackState (p : Package) : PackState :=
  p.packHistory.headD { level := 0, is_valid := false }

/-- Mutate the head history entry of a variable. -/
def setVarHead (f : VarState → VarState) (v : Variable) : Variable :=
  { v with states := match v.states with
                     | [] => []
                     | st :: r => f st :: r }

def setVarHeadValid (b : Bool) : Variable → Variable :=
  setVarHead fun st => { st with is_valid := b }

def setVarHeadLevel (l : Int) : Variable → Variable :=
  setVarHead fun st => { st with level := l }

/-- `variable_set`'s payload write: overwrite the scalar in the current
state (release the old datum, `datumCopy` the new one). -/
def setVarHeadScalar (value : Option Int) : Variable → Variable :=
  setVarHead fun st => { st with value := .scalar value }

/-- `insert_record`: add a tuple to the current state's record store. -/
def setVarHeadInsertRecord (rec : Int) : Variable → Variable :=
  setVarHead fun st =>
    { st with value := match st.value with
                       | .record l => .record (rec :: l)
                       | other => other }

/-- Mutate the head history entry of a package. -/
def setPackHead (f : PackState → PackState) (p : Package) : Package :=
  { p with packHistory := match p.packHistory with
                          | [] => []
                          | st :: r => f st :: r }

def setPackHeadValid (b : Bool) : Package → Package :=
  setPackHead fun st => { st with is_valid := b }

def setPackHeadLevel (l : Int) : Package → Package :=
  setPackHead fun st => { st with level := l }

/-! ## Session-level lookups and updates -/

def lookupPackage (s : Session) (pk : Name) : Option Package :=
  aget pk (s.packagesHash.getD [])

/-- Resolve a transactional variable through the registry (`package->varHashTransact`). -/
def lookupTransVar (s : Session) (pk vk : Name) : Option Variable :=
  match lookupPackage s pk with
  | none => none
  | some p => aget vk p.varHashTransact

/-- Resolve a variable in either hash table, regular first (the search
order of `getVariableInternal`); the flag tells which table held it. -/
def lookupVarEither (s : Session) (pk vk : Name) : Option (Variable × Bool) :=
  match lookupPackage s pk with
  | none => none
  | some p =>
    match aget vk p.varHashRegular with
    | some v => some (v, false)
    | none =>
      match aget vk p.varHashTransact with
      | some v => some (v, true)
      | none => none

def modifyPackageP (pk : Name) (f : Package → Package) (s : Session) : Session :=
  { s with packagesHash := s.packagesHash.map (amod pk f) }

/-- Mutate a variable in the hash table selected by `is_trans`
(the `pack_htab` macro). -/
def modifyVarInP (pk vk : Name) (is_trans : Bool) (f : Variable → Variable) :
    Session → Session :=
  modifyPackageP pk fun p =>
    if is_trans then { p with varHashTransact := amod vk f p.varHashTransact }
    else { p with varHashRegular := amod vk f p.varHashRegular }

def modifyTransVarP (pk vk : Name) (f : Variable → Variable) : Session → Session :=
  modifyVarInP pk vk true f

/-! ## The changes stack -/

/-- `isObjectChangedInCurrentTrans`: false when there is no stack,
otherwise compare the object's current-state level with the host's
nesting level. -/
def isChangedInCurrentTrans (s : Session) (headLevel : Int) : Bool :=
  s.changesStack.isSome && headLevel == s.level

/-- `isObjectChangedInUpperTrans` for a variable: the state after the
current one carries the parent level. -/
def isChangedInUpperVar (v : Variable) (lvl : Int) : Bool :=
  match v.states with
  | _ :: prev :: _ => prev.level == lvl - 1
  | _ => false

/-- `isObjectChangedInUpperTrans` for a package. -/
def isChangedInUpperPack (p : Package) (lvl : Int) : Bool :=
  match p.packHistory with
  | _ :: prev :: _ => prev.level == lvl - 1
  | _ => false

/-- `pushChangesStack`: create the stack if needed and push one empty frame. -/
def pushChangesStackP (s : Session) : Session :=
  { s with changesStack := some (emptyFrame :: s.changesStack.getD []) }

/-- `prepareChangesStack`: if there is no stack yet, build one frame per
currently open nesting level. -/
def prepareChangesStackP (s : Session) : Session :=
  if s.changesStack.isSome then s
  else { s with changesStack := some (List.replicate s.level.toNat emptyFrame) }

/-- Append an object to the current level's frame
(`dlist_push_head(csn->changedVarsList, ...)`). -/
def pushVarToTopFrame (pk vk : Name) (s : Session) : Session :=
  match s.changesStack with
  | some (csn :: rest) =>
    let csn1 := { csn with changedVarsList := (pk, vk) :: csn.changedVarsList }
    { s with changesStack := some (csn1 :: rest) }
  | _ => s

def pushPackToTopFrame (pk : Name) (s : Session) : Session :=
  match s.changesStack with
  | some (csn :: rest) =>
    let csn1 := { csn with changedPacksList := pk :: csn.changedPacksList }
    { s with changesStack := some (csn1 :: rest) }
  | _ => s

/-- `addToChangesStack` for a variable: prepare the stack, and unless the
object is already registered at the current level, list it in the current
frame and stamp its current state with the current level. -/
def addToChangesVarP (pk vk : Name) (s : Session) : Session :=
  let s1 := prepareChangesStackP s
  match lookupTransVar s1 pk vk with
  | none => s1
  | some v =>
    if isChangedInCurrentTrans s1 (headVarState v).level then s1
    else
      let s2 := pushVarToTopFrame pk vk s1
      modifyTransVarP pk vk (setVarHeadLevel s2.level) s2

/-- `addToChangesStack` for a package. -/
def addToChangesPackP (pk : Name) (s : Session) : Session :=
  let s1 := prepareChangesStackP s
  match lookupPackage s1 pk with
  | none => s1
  | some p =>
    if isChangedInCurrentTrans s1 (headPackState p).level then s1
    else
      let s2 := pushPackToTopFrame pk s1
      modifyPackageP pk (setPackHeadLevel s2.level) s2

/-! ## Savepoints (state history manipulation) -/

/-- `createSavepoint` for a variable: push a zero-initialised copy of the
current state (level 0 until `addToChangesStack` stamps it), `copyValue`
duplicating the payload and `is_valid` inherited from the previous state. -/
def createSavepointVar (v : Variable) : Variable :=
  { v with states :=
      { level := 0, is_valid := (headVarState v).is_valid,
        value := (headVarState v).value } :: v.states }

/-- `createSavepoint` for a package. -/
def createSavepointPack (p : Package) : Package :=
  { p with packHistory :=
      { level := 0, is_valid := (headPackState p).is_valid } :: p.packHistory }

/-- `removeObject` for a transactional variable: drop all its states and
delete it from its package's transactional hash table. -/
def removeObjectVarP (pk vk : Name) (s : Session) : Session :=
  modifyPackageP pk (fun p => { p with varHashTransact := adel vk p.varHashTransact }) s

/-- `removeFromChangedVars`: when a package is destroyed, delete from the
now-current (parent) frame every variable belonging to it, and the first
listing of the package itself. -/
def removeFirstPack (pk : Name) : List Name → List Name
  | [] => []
  | x :: r => if x = pk then r else x :: removeFirstPack pk r

def removeFromChangedVarsP (pk : Name) (s : Session) : Session :=
  match s.changesStack with
  | some (csn :: rest) =>
    let csn1 := { csn with
      changedVarsList := csn.changedVarsList.filter (fun pv => pv.1 ≠ pk),
      changedPacksList := removeFirstPack pk csn.changedPacksList }
    { s with changesStack := some (csn1 :: rest) }
  | _ => s

/-- `removeObject` for a package: clean the overlying frame (only when the
stack is nonempty), then drop the package entry (its transactional
variables die with `hctxTransact`). -/
def removeObjectPackP (pk : Name) (s : Session) : Session :=
  let s1 := match s.changesStack with
            | some (_ :: _) => removeFromChangedVarsP pk s
            | _ => s
  { s1 with packagesHash := s1.packagesHash.map (adel pk) }

/-- `rollbackSavepoint` for a variable: `removeState` the head entry; if
that leaves no states, the variable was created in the rolled-back
transaction and is destroyed. -/
def rollbackVarStepP (pk vk : Name) (s : Session) : Session :=
  match lookupTransVar s pk vk with
  | none => s  -- in C this entry would be a dangling pointer
  | some v =>
    let s1 := modifyTransVarP pk vk (fun w => { w with states := w.states.tail }) s
    if v.states.tail.isEmpty then removeObjectVarP pk vk s1 else s1

/-- `rollbackSavepoint` for a package: only an invalidated package is
rolled back (pop the head state, recreate the regular map empty); a
package whose current state is valid is left untouched. -/
def rollbackPackStepP (pk : Name) (s : Session) : Session :=
  match lookupPackage s pk with
  | none => s
  | some p =>
    if (headPackState p).is_valid then s
    else
      modifyPackageP pk
        (fun q => { q with packHistory := q.packHistory.tail, varHashRegular := [] }) s

/-- `releaseSavepoint` for a variable: drop the state second from head if
there is one; then either destroy the object (current state invalid and no
other states) or decrement the current state's level. -/
def releaseSavepointVarP (pk vk : Name) (s : Session) : Session :=
  match lookupTransVar s pk vk with
  | none => s
  | some v =>
    let states1 := match v.states with
                   | st :: _ :: rest => st :: rest
                   | l => l
    let s1 := modifyTransVarP pk vk (fun w => { w with states := states1 }) s
    match states1 with
    | [st] =>
      if st.is_valid then modifyTransVarP pk vk (setVarHeadLevel (st.level - 1)) s1
      else removeObjectVarP pk vk s1
    | st :: _ :: _ => modifyTransVarP pk vk (setVarHeadLevel (st.level - 1)) s1
    | [] => s1

/-- `releaseSavepoint` for a package. -/
def releaseSavepointPackP (pk : Name) (s : Session) : Session :=
  match lookupPackage s pk with
  | none => s
  | some p =>
    let hist1 := match p.packHistory with
                 | st :: _ :: rest => st :: rest
                 | l => l
    let s1 := modifyPackageP pk (fun q => { q with packHistory := hist1 }) s
    match hist1 with
    | [st] =>
      if st.is_valid then modifyPackageP pk (setPackHeadLevel (st.level - 1)) s1
      else removeObjectPackP pk s1
    | st :: _ :: _ => modifyPackageP pk (setPackHeadLevel (st.level - 1)) s1
    | [] => s1

/-! ## `processChanges` -/

/-- The two finalisation actions of `processChanges`. -/
inductive Action where
  | release
  | rollback
deriving DecidableEq, Repr

/-- The per-variable work of `processChanges(RELEASE_SAVEPOINT)`: if the
variable's package was removed at this level, mark the variable invalid;
then, if there is no remaining frame or the object also changed at the
parent level, release the savepoint, otherwise re-list the object in the
parent's frame and decrement its state's level. -/
def releaseVarStepP (pk vk : Name) (s : Session) : Session :=
  match lookupPackage s pk with
  | none => s  -- dangling reference: the package was destroyed
  | some pack =>
    match aget vk pack.varHashTransact with
    | none => s  -- dangling reference: the variable was destroyed
    | some _ =>
      let s1 := if (headPackState pack).is_valid then s
                else modifyTransVarP pk vk (setVarHeadValid false) s
      match lookupTransVar s1 pk vk with
      | none => s1
      | some v =>
        if (s1.changesStack.getD []).isEmpty || isChangedInUpperVar v s1.level then
          releaseSavepointVarP pk vk s1
        else
          let s2 := pushVarToTopFrame pk vk s1
          modifyTransVarP pk vk
            (fun w => setVarHeadLevel ((headVarState w).level - 1) w) s2

/-- The per-package work of `processChanges(RELEASE_SAVEPOINT)`. -/
def releasePackStepP (pk : Name) (s : Session) : Session :=
  match lookupPackage s pk with
  | none => s
  | some p =>
    if (s.changesStack.getD []).isEmpty || isChangedInUpperPack p s.level then
      releaseSavepointPackP pk s
    else
      let s2 := pushPackToTopFrame pk s
      modifyPackageP pk (fun q => setPackHeadLevel ((headPackState q).level - 1) q) s2

/-- The teardown checks at the end of `processChanges`: delete the stack
when it emptied, and when the package registry holds no entries reset the
whole module (contexts, hash, stack, cache) to its initial state. -/
def finalizeChangesP (s : Session) : Session :=
  let s1 := if s.changesStack = some ([] : List ChangesStackNode) then
              { s with changesStack := none }
            else s
  if (s1.packagesHash.getD []).length = 0 then
    { s1 with packagesHash := none, changesStack := none,
              lastPackage := none, lastVariable := none }
  else s1

/-- `processChanges`: pop the current level's frame, process its variables
first and then its packages, then run the teardown checks.  Callers
guarantee the stack exists. -/
def processChangesP (act : Action) (s : Session) : Session :=
  match s.changesStack with
  | some (bottom :: rest) =>
    let s1 := { s with changesStack := some rest }
    let s2 := bottom.changedVarsList.foldl
      (fun t pv =>
        match act with
        | .rollback => rollbackVarStepP pv.1 pv.2 t
        | .release => releaseVarStepP pv.1 pv.2 t) s1
    let s3 := bottom.changedPacksList.foldl
      (fun t pk =>
        match act with
        | .rollback => rollbackPackStepP pk t
        | .release => releasePackStepP pk t) s2
    finalizeChangesP s3
  | _ => s

/-! ## Host transaction events (`pgvSubTransCallback` / `pgvTransCallback`) -/

/-- `SUBXACT_EVENT_START_SUB`: the host has opened a subtransaction (the
nesting level grows), and the callback pushes a frame if a stack exists. -/
def beginSubxactP (s : Session) : Session :=
  let s1 := { s with level := s.level + 1 }
  if s1.changesStack.isSome then pushChangesStackP s1 else s1

/-- `SUBXACT_EVENT_COMMIT_SUB`: release at the child level, then the host
decrements the nesting level. -/
def commitSubxactP (s : Session) : Session :=
  let s1 := if s.changesStack.isSome then processChangesP .release s else s
  { s1 with level := s1.level - 1 }

/-- `SUBXACT_EVENT_ABORT_SUB`. -/
def abortSubxactP (s : Session) : Session :=
  let s1 := if s.changesStack.isSome then processChangesP .rollback s else s
  { s1 with level := s1.level - 1 }

/-- `XACT_EVENT_PRE_COMMIT` at nesting level 1. -/
def commitTopLevelP (s : Session) : Session :=
  if s.changesStack.isSome then processChangesP .release s else s

/-- `XACT_EVENT_ABORT` at nesting level 1. -/
def abortTopLevelP (s : Session) : Session :=
  if s.changesStack.isSome then processChangesP .rollback s else s

/-! ## Fallible operations

The user-facing operations can `ereport(ERROR)`.  They live in a small
state-plus-error monad over `Session`; an error result carries the session
as it stands at the moment of the `ereport`. -/

/-- The error conditions raised by the modelled operations; in C these are
distinct `ereport` messages (all with `ERRCODE_INVALID_PARAMETER_VALUE`). -/
inductive PgError where
  /-- `name "..." is too long` -/
  | nameTooLong
  /-- `unrecognized package "..."` -/
  | pkgNotFound
  /-- `unrecognized variable "..."` -/
  | varNotFound
  /-- `variable "..." already created as [NOT] TRANSACTIONAL` -/
  | kindMismatch
  /-- `variable "..." requires "..." value` -/
  | typeMismatch
deriving DecidableEq, Repr

/-- A fallible, session-mutating computation. -/
def M (α : Type) : Type := Session → Except PgError α × Session

instance : Monad M where
  pure a := fun s => (.ok a, s)
  bind x f := fun s =>
    match x s with
    | (.ok a, t) => f a t
    | (.error e, t) => (.error e, t)

def getS : M Session := fun s => (.ok s, s)

def modifyS (f : Session → Session) : M Unit := fun s => (.ok (), f s)

def throwE {α : Type} (e : PgError) : M α := fun s => (.error e, s)

/-- `getKeyFromName`: reject a name of `NAMEDATALEN - 1` bytes or more;
otherwise the key is the name itself. -/
def getKeyFromName (name : Name) : M Name := fun s =>
  if NAMEDATALEN - 1 ≤ name.utf8ByteSize then (.error .nameTooLong, s)
  else (.ok name, s)

/-- `ensurePackagesHashExists`. -/
def ensurePackagesHashExists : M Unit :=
  modifyS fun s =>
    if s.packagesHash.isSome then s else { s with packagesHash := some [] }

/-- A freshly created package: empty variable maps and a single state
(zero-allocated, so level 0, then marked valid); `addToChangesStack`
stamps the level afterwards. -/
def newPackage : Package :=
  { varHashRegular := [], varHashTransact := [],
    packHistory := [{ level := 0, is_valid := true }] }

/-- The resurrection path of `getPackageByName`: mark every transactional
variable of the package as removed (savepoint first unless already changed
at this level). -/
def markTransVarsRemovedP (pk : Name) (s : Session) : Session :=
  match lookupPackage s pk with
  | none => s
  | some pack =>
    pack.varHashTransact.foldl
      (fun t e =>
        match lookupTransVar t pk e.1 with
        | none => t
        | some v =>
          let t1 := if isChangedInCurrentTrans t (headVarState v).level then t
                    else addToChangesVarP pk e.1 (modifyTransVarP pk e.1 createSavepointVar t)
          modifyTransVarP pk e.1 (setVarHeadValid false) t1) s

/-- The `hash_search` part of `getPackageByName`: find the package entry
(creating it when `create`), resurrecting an invalidated entry on the
create path, and applying the strict/non-strict policy otherwise. -/
def findOrCreatePackage (key : Name) (create strict : Bool) : M (Option Name) := do
  let s ← getS
  match aget key (s.packagesHash.getD []) with
  | some pack =>
    if (headPackState pack).is_valid then pure (some key)
    else if create then do
      modifyS fun t =>
        if isChangedInCurrentTrans t (headPackState pack).level then t
        else addToChangesPackP key (modifyPackageP key createSavepointPack t)
      modifyS (modifyPackageP key (setPackHeadValid true))
      -- makePackHTAB(package, false): restore the regular map, empty
      modifyS (modifyPackageP key (fun p => { p with varHashRegular := [] }))
      modifyS (markTransVarsRemovedP key)
      pure (some key)
    else if strict then throwE .pkgNotFound
    else pure none
  | none =>
    if create then do
      modifyS fun t =>
        { t with packagesHash := some (aset key newPackage (t.packagesHash.getD [])) }
      modifyS (addToChangesPackP key)
      pure (some key)
    else if strict then throwE .pkgNotFound
    else pure none

/-- `getPackageByName`. -/
def getPackageByName (name : Name) (create strict : Bool) : M (Option Name) := do
  let key ← getKeyFromName name
  if create then do
    ensurePackagesHashExists
    findOrCreatePackage key create strict
  else do
    let s ← getS
    if s.packagesHash.isNone then
      if strict then throwE .pkgNotFound else pure none
    else
      findOrCreatePackage key create strict

/-- The variable entry freshly created by `createVariableInternal`:
one zero-allocated state; scalars start as SQL NULL, records empty. -/
def newVariable (typid : Nat) (is_trans : Bool) : Variable :=
  { typid := typid, is_transactional := is_trans,
    states := [{ level := 0, is_valid := false,
                 value := if typid = RECORDOID then .record [] else .scalar none }] }

/-- The `pack_htab` macro: select the variable map by the flag. -/
def pack_htab (p : Package) (is_trans : Bool) : List (Name × Variable) :=
  if is_trans then p.varHashTransact else p.varHashRegular

/-- Common tail of `createVariableInternal`: mark the current state valid
and, for a transactional variable, list it in the changes stack. -/
def finishCreateVariable (pk key : Name) (is_trans : Bool) : M Name := do
  modifyS (modifyVarInP pk key is_trans (setVarHeadValid true))
  if is_trans then modifyS (addToChangesVarP pk key)
  pure key

/-- `createVariableInternal`: reverse-check the other map for a
transactional-flag conflict, then find or create the entry, checking the
value type and creating a savepoint for an existing transactional variable
not yet changed at this level. -/
def createVariableInternal (pk : Name) (name : Name) (typid : Nat) (is_trans : Bool) :
    M Name := do
  let key ← getKeyFromName name
  let s ← getS
  match lookupPackage s pk with
  | none => pure key  -- unreachable: callers pass a package from getPackageByName
  | some pack =>
    if (aget key (pack_htab pack (!is_trans))).isSome then
      throwE .kindMismatch
    else
      match aget key (pack_htab pack is_trans) with
      | some v =>
        if v.typid ≠ typid then throwE .typeMismatch
        else do
          if is_trans && !isChangedInCurrentTrans s (headVarState v).level then
            modifyS (modifyVarInP pk key is_trans createSavepointVar)
          finishCreateVariable pk key is_trans
      | none => do
        modifyS (modifyPackageP pk fun p =>
          if is_trans then
            { p with varHashTransact := aset key (newVariable typid is_trans) p.varHashTransact }
          else
            { p with varHashRegular := aset key (newVariable typid is_trans) p.varHashRegular })
        finishCreateVariable pk key is_trans

/-- `getVariableInternal`: look the name up (regular map first), check the
value type, and apply the strict policy; a found-but-invalid variable is
an error only under `strict`. -/
def getVariableInternal (pk : Name) (name : Name) (typid : Nat) (strict : Bool) :
    M (Option Variable) := do
  let key ← getKeyFromName name
  let s ← getS
  match lookupPackage s pk with
  | none => pure none  -- unreachable: callers pass a package from getPackageByName
  | some _ =>
    match lookupVarEither s pk key with
    | some (v, _) =>
      if v.typid ≠ typid then throwE .typeMismatch
      else if !(headVarState v).is_valid && strict then throwE .varNotFound
      else pure (some v)
    | none =>
      if strict then throwE .varNotFound
      else pure none

/-- `variable_set`: resolve or create the package and the variable, then
overwrite the scalar payload of the current state. -/
def variable_set (pkg vn : Name) (typid : Nat) (value : Option Int) (is_trans : Bool) :
    M Unit := do
  match ← getPackageByName pkg true false with
  | none => pure ()  -- unreachable: create = true always yields a package
  | some pk => do
    let vk ← createVariableInternal pk vn typid is_trans
    modifyS (modifyVarInP pk vk is_trans (setVarHeadScalar value))

/-- `variable_get`: a NULL result (`Option.none`) for an absent package or
variable in non-strict mode, otherwise the current scalar value. -/
def variable_get (pkg vn : Name) (typid : Nat) (strict : Bool) : M (Option Int) := do
  match ← getPackageByName pkg false strict with
  | none => pure none
  | some pk => do
    match ← getVariableInternal pk vn typid strict with
    | none => pure none
    | some v =>
      pure (match (headVarState v).value with
            | .scalar x => x
            | .record _ => none)

/-- `variable_exists`: search both maps; a found variable reports its
current state's validity flag. -/
def variable_exists (pkg vn : Name) : M Bool := do
  match ← getPackageByName pkg false false with
  | none => pure false
  | some pk => do
    let key ← getKeyFromName vn
    let s ← getS
    match lookupVarEither s pk key with
    | some (v, _) => pure (headVarState v).is_valid
    | none => pure false

/-- `package_exists`. -/
def package_exists (pkg : Name) : M Bool := do
  pure (← getPackageByName pkg false false).isSome

/-- `remove_variable`: a regular variable's entry and state are deleted
outright; a transactional variable gets a savepoint (unless already
changed at this level) and its current state marked invalid. -/
def remove_variable (pkg vn : Name) : M Unit := do
  match ← getPackageByName pkg false true with
  | none => pure ()  -- unreachable: the strict lookup raised
  | some pk => do
    let key ← getKeyFromName vn
    let s ← getS
    match lookupPackage s pk with
    | none => pure ()
    | some pack =>
      match aget key pack.varHashRegular with
      | some _ =>
        modifyS (modifyPackageP pk fun p =>
          { p with varHashRegular := adel key p.varHashRegular })
      | none =>
        match aget key pack.varHashTransact with
        | none => throwE .varNotFound
        | some v => do
          if !isChangedInCurrentTrans s (headVarState v).level then
            modifyS (addToChangesVarP pk key ∘ modifyTransVarP pk key createSavepointVar)
          modifyS (modifyTransVarP pk key (setVarHeadValid false))
    modifyS fun t => { t with lastVariable := none }

/-- `removePackageInternal`: free the regular-variable storage immediately
(the map is emptied and not recoverable), then savepoint the package
(unless already changed at this level) and mark it invalid. -/
def removePackageInternal (pk : Name) : M Unit := do
  modifyS (modifyPackageP pk fun p => { p with varHashRegular := [] })
  let s ← getS
  match lookupPackage s pk with
  | none => pure ()
  | some p => do
    if !isChangedInCurrentTrans s (headPackState p).level then
      modifyS (addToChangesPackP pk ∘ modifyPackageP pk createSavepointPack)
    modifyS (modifyPackageP pk (setPackHeadValid false))

/-- `remove_package`. -/
def remove_package (pkg : Name) : M Unit := do
  match ← getPackageByName pkg false true with
  | none => pure ()  -- unreachable: the strict lookup raised
  | some pk => do
    removePackageInternal pk
    modifyS fun t => { t with lastPackage := none, lastVariable := none }

/-- `remove_packages`: remove every package in the registry. -/
def remove_packages : M Unit := do
  let s ← getS
  match s.packagesHash with
  | none => pure ()
  | some l => do
    l.forM fun e => removePackageInternal e.1
    modifyS fun t => { t with lastPackage := none, lastVariable := none }

/-! ## `variable_insert` and the last-touched cache -/

/-- The package half of the record operations' cache check: reuse
`LastPackage` when the name matches, otherwise resolve through the
registry and refill the cache (clearing `LastVariable`). -/
def cachedPackageLookup (pkg : Name) : M Name := do
  let s ← getS
  match s.lastPackage with
  | some lp =>
    if pkg = lp then pure lp
    else do
      match ← getPackageByName pkg true false with
      | none => pure pkg  -- unreachable
      | some pk => do
        modifyS fun t => { t with lastPackage := some pk, lastVariable := none }
        pure pk
  | none => do
    match ← getPackageByName pkg true false with
    | none => pure pkg  -- unreachable
    | some pk => do
      modifyS fun t => { t with lastPackage := some pk, lastVariable := none }
      pure pk

/-- `variable_insert`: resolve the package and variable through the
last-touched cache when the names match, otherwise through the registry;
then insert the record into the current state.  On the cached variable
path the C code dereferences the saved `LastVariable` pointer directly; if
that object has been destroyed the pointer is dangling and the behaviour
is undefined — the model skips the operation in that case. -/
def variable_insert (pkg vn : Name) (rec : Int) (is_trans : Bool) : M Unit := do
  let pk ← cachedPackageLookup pkg
  let s ← getS
  match s.lastVariable with
  | some lv =>
    if vn = lv then do
      -- cached fast path: no registry lookup, no type check
      let s ← getS
      match lookupVarEither s pk lv with
      | none => pure ()  -- dangling LastVariable: undefined behaviour in C
      | some (v, in_trans) =>
        if v.is_transactional ≠ is_trans then do
          let _ ← getKeyFromName vn
          throwE .kindMismatch
        else do
          if v.is_transactional && !isChangedInCurrentTrans s (headVarState v).level then
            modifyS (addToChangesVarP pk lv ∘ modifyVarInP pk lv in_trans createSavepointVar)
          modifyS (modifyVarInP pk lv in_trans (setVarHeadInsertRecord rec))
    else do
      let vk ← createVariableInternal pk vn RECORDOID is_trans
      modifyS fun t => { t with lastVariable := some vk }
      modifyS (modifyVarInP pk vk is_trans (setVarHeadInsertRecord rec))
  | none => do
    let vk ← createVariableInternal pk vn RECORDOID is_trans
    modifyS fun t => { t with lastVariable := some vk }
    modifyS (modifyVarInP pk vk is_trans (setVarHeadInsertRecord rec))

/-- Modelled from the spec: the cache-free reference behaviour of a record
insert — "implement as a weak-indexed lookup ... never required for
correctness", i.e. the same operation with every name resolved through
the registry (`getOrCreatePackage` / `getOrCreateVariable`) and no
last-touched cache involved. -/
def variable_insert_nocache (pkg vn : Name) (rec : Int) (is_trans : Bool) : M Unit := do
  match ← getPackageByName pkg true false with
  | none => pure ()
  | some pk => do
    let vk ← createVariableInternal pk vn RECORDOID is_trans
    modifyS (modifyVarInP pk vk is_trans (setVarHeadInsertRecord rec))

/-! ## Concrete scenarios

Each scenario runs a sequence of user operations and host transaction
events from the initial session and names the resulting session; the
claims' theorems evaluate the model on these. -/

/-- The final session of a computation (errors keep the session reached at
the raise). -/
def runState (m : M Unit) (s : Session) : Session := (m s).2

/-- Scenario: `set x := v1` at top level, open a subtransaction,
`set x := v2` inside it, abort the subtransaction. -/
def nestedSetAbort (v1 v2 : Int) : Session :=
  runState (do
    variable_set "p" "x" 23 (some v1) true
    modifyS beginSubxactP
    variable_set "p" "x" 23 (some v2) true
    modifyS abortSubxactP) initialSession

/-- Scenario: `set x := 1` at level 1, open two nested subtransactions,
`set x := 3` at level 3, commit level 3 (whose parent level 2 never
touched `x`). -/
def skipLevelCommit : Session :=
  runState (do
    variable_set "p" "x" 23 (some 1) true
    modifyS beginSubxactP
    modifyS beginSubxactP
    variable_set "p" "x" 23 (some 3) true
    modifyS commitSubxactP) initialSession

/-- Scenario: a package and a variable created inside a subtransaction
that then aborts. -/
def createdThenAborted : Session :=
  runState (do
    modifyS beginSubxactP
    variable_set "p" "x" 23 (some 1) true
    modifyS abortSubxactP) initialSession

/-- Scenario exercising the stale level stamp a package keeps after
surviving a subtransaction abort: the package is then removed in a new
subtransaction at the same level without a savepoint, resurrected at top
level, and removed again in yet another subtransaction. -/
def staleLevelScenario : Session :=
  runState (do
    modifyS beginSubxactP
    variable_set "p" "x" 23 (some 1) true
    modifyS abortSubxactP
    modifyS beginSubxactP
    remove_package "p"
    modifyS commitSubxactP
    variable_set "p" "y" 25 (some 2) true
    modifyS beginSubxactP
    remove_package "p") initialSession

/-- Scenario: a package with a regular variable `r` and a transactional
variable `t`, removed inside a subtransaction that then aborts. -/
def removePackageAbort (vr vt : Int) : Session :=
  runState (do
    variable_set "p" "r" 23 (some vr) false
    variable_set "p" "t" 23 (some vt) true
    modifyS beginSubxactP
    remove_package "p"
    modifyS abortSubxactP) initialSession

/-- Scenario: a transactional variable set at top level, then its package
removed inside a still-open subtransaction (the package's current state is
invalid). -/
def removedPackagePending : Session :=
  runState (do
    variable_set "p" "x" 23 (some 5) true
    modifyS beginSubxactP
    remove_package "p") initialSession

/-- Scenario: a transactional variable set at top level, then removed
inside a still-open subtransaction (the variable's current state is
invalid). -/
def removedVariablePending : Session :=
  runState (do
    variable_set "p" "x" 23 (some 5) true
    modifyS beginSubxactP
    remove_variable "p" "x") initialSession

/-- Scenario: a package created with one transactional variable and then
removed, all at top level, just before the top-level commit. -/
def emptiedRegistryPending : Session :=
  runState (do
    variable_set "p" "x" 23 (some 1) true
    remove_package "p") initialSession

/-- Scenario: a record variable first created by `variable_insert` inside
a subtransaction that then aborts; the abort destroys the variable but
leaves the last-touched cache pointing at it. -/
def staleCacheScenario : Session :=
  runState (do
    modifyS beginSubxactP
    variable_insert "p" "v" 7 true
    modifyS abortSubxactP) initialSession

/-- A 63-byte name, one byte over the `NAMEDATALEN - 1` limit. -/
def longName : Name := String.mk (List.replicate 63 'a')

/-- A 62-byte name, the longest accepted. -/
def longOkName : Name := String.mk (List.replicate 62 'b')

deriving instance DecidableEq for Except

/-- Scenario: the variable is set twice at subtransaction level 2 (the
second set registers the change again before any commit or abort). -/
def doubleSetScenario : Session :=
  runState (do
    variable_set "p" "x" 23 (some 1) true
    modifyS beginSubxactP
    variable_set "p" "x" 23 (some 2) true
    variable_set "p" "x" 23 (some 3) true) initialSession

/-- A hand-built session for exercising `releaseVarStepP` where the
parent level registered a change of `x` (its previous history entry is
stamped with level 2 = 3 - 1). -/
def upperChangedSession : Session :=
  { packagesHash := some [("p",
      { varHashRegular := [],
        varHashTransact := [("x",
          { typid := 23, is_transactional := true,
            states := [{ level := 3, is_valid := true, value := .scalar (some 7) },
                       { level := 2, is_valid := true, value := .scalar (some 5) }] })],
        packHistory := [{ level := 1, is_valid := true }] })],
    changesStack := some [emptyFrame],
    lastPackage := none, lastVariable := none, level := 3 }

/-- A hand-built session for exercising `releaseVarStepP` where the
parent level did not register a change of `x` (its previous history entry
is stamped with level 1 ≠ 3 - 1). -/
def upperUnchangedSession : Session :=
  { packagesHash := some [("p",
      { varHashRegular := [],
        varHashTransact := [("x",
          { typid := 23, is_transactional := true,
            states := [{ level := 3, is_valid := true, value := .scalar (some 7) },
                       { level := 1, is_valid := true, value := .scalar (some 5) }] })],
        packHistory := [{ level := 1, is_valid := true }] })],
    changesStack := some [emptyFrame],
    lastPackage := none, lastVariable := none, level := 3 }

/-- A hand-built session whose package `p` is pending removal (head state
invalid) and whose variable `x` has a single history entry, as after
being created inside the current subtransaction. -/
def pendingRemovalSession : Session :=
  { packagesHash := some [("p",
      { varHashRegular := [],
        varHashTransact := [("x",
          { typid := 23, is_transactional := true,
            states := [{ level := 2, is_valid := true, value := .scalar (some 1) }] })],
        packHistory := [{ level := 2, is_valid := false }, { level := 1, is_valid := true }] })],
    changesStack := some [emptyFrame],
    lastPackage := none, lastVariable := none, level := 2 }

/-- A hand-built session whose variable `x` was removed at the current
level 2 (head entry invalid) after being changed at level 1: on commit of
level 2 the release step drops the superseded entry and then destroys the
variable. -/
def invalidHeadVarSession : Session :=
  { packagesHash := some [("p",
      { varHashRegular := [],
        varHashTransact := [("x",
          { typid := 23, is_transactional := true,
            states := [{ level := 2, is_valid := false, value := .scalar (some 5) },
                       { level := 1, is_valid := true, value := .scalar (some 5) }] })],
        packHistory := [{ level := 1, is_valid := true }] })],
    changesStack := some [emptyFrame],
    lastPackage := none, lastVariable := none, level := 2 }

/-- A hand-built session in the middle of a top-level commit: the current
frame is already popped and no frame remains; `x` and its package each
hold a single valid level-1 entry. -/
def topCommitVarSession : Session :=
  { packagesHash := some [("p",
      { varHashRegular := [],
        varHashTransact := [("x",
          { typid := 23, is_transactional := true,
            states := [{ level := 1, is_valid := true, value := .scalar (some 1) }] })],
        packHistory := [{ level := 1, is_valid := true }] })],
    changesStack := some [],
    lastPackage := none, lastVariable := none, level := 1 }

/-- A hand-built session whose package has a parent-level entry below its
current valid one: commit of level 2 collapses the history. -/
def packReleaseSession : Session :=
  { packagesHash := some [("p",
      { varHashRegular := [], varHashTransact := [],
        packHistory := [{ level := 2, is_valid := true },
                        { level := 1, is_valid := true }] })],
    changesStack := some [emptyFrame],
    lastPackage := none, lastVariable := none, level := 2 }

/-- A hand-built session whose package is pending removal (head entry
invalid) above a parent-level entry: commit of level 2 drops the parent
entry and then destroys the package. -/
def packDestroySession : Session :=
  { packagesHash := some [("p",
      { varHashRegular := [], varHashTransact := [],
        packHistory := [{ level := 2, is_valid := false },
                        { level := 1, is_valid := true }] })],
    changesStack := some [emptyFrame],
    lastPackage := none, lastVariable := none, level := 2 }

/-- A hand-built session whose package only changed at the current level
while the parent level registered nothing: commit of level 2 re-lists it
in the parent's frame. -/
def packRelistSession : Session :=
  { packagesHash := some [("p",
      { varHashRegular := [], varHashTransact := [],
        packHistory := [{ level := 2, is_valid := true }] })],
    changesStack := some [emptyFrame],
    lastPackage := none, lastVariable := none, level := 2 }

/-- A hand-built session in the middle of a top-level commit with pending
removals: variable `y` of the (valid) package `q` holds a single invalid
entry, and package `r` holds a single invalid entry, so the release step
destroys each of them. -/
def topDestroySession : Session :=
  { packagesHash := some [
      ("q",
       { varHashRegular := [],
         varHashTransact := [("y",
           { typid := 23, is_transactional := true,
             states := [{ level := 1, is_valid := false, value := .scalar none }] })],
         packHistory := [{ level := 1, is_valid := true }] }),
      ("r",
       { varHashRegular := [], varHashTransact := [],
         packHistory := [{ level := 1, is_valid := false }] })],
    changesStack := some [],
    lastPackage := none, lastVariable := none, level := 1 }

/-- A hand-built session whose only frame is empty while the registry is
empty too: a top-level abort from here triggers the full teardown. -/
def abortTeardownSession : Session :=
  { packagesHash := some [], changesStack := some [emptyFrame],
    lastPackage := none, lastVariable := none, level := 1 }

/-! ## Lemmas about the association-list operations -/

theorem aget_nil {α : Type} (k : Name) : aget k ([] : List (Name × α)) = none := rfl

theorem aget_cons {α : Type} (k k' : Name) (a : α) (l : List (Name × α)) :
    aget k ((k', a) :: l) = if k' = k then some a else aget k l := rfl

theorem aget_amod_self {α : Type} (k : Name) (f : α → α) (l : List (Name × α)) :
    aget k (amod k f l) = (aget k l).map f := by
  induction l with
  | nil => rfl
  | cons e r ih =>
    obtain ⟨k', a⟩ := e
    by_cases h : k' = k
    · simp [amod, aget, h]
    · simp [amod, aget, h, ih]

theorem amod_keys {α : Type} (k : Name) (f : α → α) (l : List (Name × α)) :
    (amod k f l).map Prod.fst = l.map Prod.fst := by
  induction l with
  | nil => rfl
  | cons e r ih =>
    obtain ⟨k', a⟩ := e
    by_cases h : k' = k
    · simp [amod, h]
    · simp [amod, h, ih]

theorem aget_eq_none_of_not_mem {α : Type} (k : Name) (l : List (Name × α))
    (h : k ∉ l.map Prod.fst) : aget k l = none := by
  induction l with
  | nil => rfl
  | cons e r ih =>
    obtain ⟨k', a⟩ := e
    simp only [List.map_cons, List.mem_cons] at h
    push_neg at h
    simp [aget, Ne.symm h.1, ih h.2]

theorem aget_adel_of_nodup {α : Type} (k : Name) (l : List (Name × α))
    (h : (l.map Prod.fst).Nodup) : aget k (adel k l) = none := by
  induction l with
  | nil => rfl
  | cons e r ih =>
    obtain ⟨k', a⟩ := e
    simp only [List.map_cons, List.nodup_cons] at h
    by_cases hk : k' = k
    · subst hk
      simp [adel, aget_eq_none_of_not_mem k' r h.1]
    · simp [adel, aget, hk, ih h.2]

/-! ## Application lemmas for `M` -/

theorem bind_apply {α β : Type} (x : M α) (f : α → M β) (s : Session) :
    (x >>= f) s = match x s with
      | (.ok a, t) => f a t
      | (.error e, t) => (.error e, t) := rfl

theorem pure_apply {α : Type} (a : α) (s : Session) : (pure a : M α) s = (.ok a, s) := rfl

theorem getS_apply (s : Session) : getS s = (.ok s, s) := rfl

theorem modifyS_apply (f : Session → Session) (s : Session) : modifyS f s = (.ok (), f s) := rfl

theorem throwE_apply {α : Type} (e : PgError) (s : Session) :
    (throwE e : M α) s = (.error e, s) := rfl

/-! ## Lookup/update interaction -/

theorem lookupPackage_modifyPackageP (pk : Name) (f : Package → Package) (s : Session) :
    lookupPackage (modifyPackageP pk f s) pk = (lookupPackage s pk).map f := by
  unfold lookupPackage modifyPackageP
  cases s.packagesHash <;> simp [aget_amod_self, aget]

theorem lookupTransVar_modifyTransVarP (pk vk : Name) (f : Variable → Variable) (s : Session) :
    lookupTransVar (modifyTransVarP pk vk f s) pk vk = (lookupTransVar s pk vk).map f := by
  unfold lookupTransVar modifyTransVarP modifyVarInP
  rw [lookupPackage_modifyPackageP]
  cases lookupPackage s pk <;> simp [aget_amod_self]

theorem changesStack_modifyPackageP (pk : Name) (f : Package → Package) (s : Session) :
    (modifyPackageP pk f s).changesStack = s.changesStack := rfl

theorem packagesHash_pushVarToTopFrame (pk vk : Name) (s : Session) :
    (pushVarToTopFrame pk vk s).packagesHash = s.packagesHash := by
  unfold pushVarToTopFrame
  split <;> rfl

theorem lookupTransVar_pushVarToTopFrame (pk vk pk' vk' : Name) (s : Session) :
    lookupTransVar (pushVarToTopFrame pk vk s) pk' vk' = lookupTransVar s pk' vk' := by
  unfold lookupTransVar lookupPackage
  rw [packagesHash_pushVarToTopFrame]

theorem packagesHash_pushPackToTopFrame (pk : Name) (s : Session) :
    (pushPackToTopFrame pk s).packagesHash = s.packagesHash := by
  unfold pushPackToTopFrame
  split <;> rfl

theorem lookupPackage_pushPackToTopFrame (pk pk' : Name) (s : Session) :
    lookupPackage (pushPackToTopFrame pk s) pk' = lookupPackage s pk' := by
  unfold lookupPackage
  rw [packagesHash_pushPackToTopFrame]

theorem packagesHash_removeFromChangedVarsP (pk : Name) (s : Session) :
    (removeFromChangedVarsP pk s).packagesHash = s.packagesHash := by
  unfold removeFromChangedVarsP
  split <;> rfl

theorem lookupPackage_removeObjectPackP (pk : Name) (s : Session)
    (hnd : ((s.packagesHash.getD []).map Prod.fst).Nodup) :
    lookupPackage (removeObjectPackP pk s) pk = none := by
  unfold removeObjectPackP lookupPackage
  dsimp only
  split
  · rw [packagesHash_removeFromChangedVarsP]
    cases hh : s.packagesHash with
    | none => rfl
    | some l =>
      rw [hh] at hnd
      simp only [Option.getD_some] at hnd
      simp [aget_adel_of_nodup _ _ hnd]
  · cases hh : s.packagesHash with
    | none => rfl
    | some l =>
      rw [hh] at hnd
      simp only [Option.getD_some] at hnd
      simp [aget_adel_of_nodup _ _ hnd]

theorem lookupTransVar_removeObjectVarP (pk vk : Name) (s : Session) (pack : Package)
    (hpk : lookupPackage s pk = some pack)
    (hnd : (pack.varHashTransact.map Prod.fst).Nodup) :
    lookupTransVar (removeObjectVarP pk vk s) pk vk = none := by
  unfold lookupTransVar removeObjectVarP
  rw [lookupPackage_modifyPackageP, hpk]
  simp [aget_adel_of_nodup vk pack.varHashTransact hnd]

theorem nodup_keys_modifyPackageP (pk : Name) (f : Package → Package) (s : Session)
    (h : ((s.packagesHash.getD []).map Prod.fst).Nodup) :
    (((modifyPackageP pk f s).packagesHash.getD []).map Prod.fst).Nodup := by
  unfold modifyPackageP
  cases hh : s.packagesHash with
  | none => simp
  | some l =>
    rw [hh] at h
    simp only [Option.getD_some] at h
    simp [amod_keys, h]

theorem level_modifyPackageP (pk : Name) (f : Package → Package) (s : Session) :
    (modifyPackageP pk f s).level = s.level := rfl

/-! ## `processChanges` never changes the nesting level

The host owns the nesting level; none of the commit/rollback processing
touches it.  These lemmas back the teardown claim. -/

theorem level_modifyVarInP (pk vk : Name) (tr : Bool) (f : Variable → Variable) (s : Session) :
    (modifyVarInP pk vk tr f s).level = s.level := rfl

theorem level_pushVarToTopFrame (pk vk : Name) (s : Session) :
    (pushVarToTopFrame pk vk s).level = s.level := by
  unfold pushVarToTopFrame
  split <;> rfl

theorem level_pushPackToTopFrame (pk : Name) (s : Session) :
    (pushPackToTopFrame pk s).level = s.level := by
  unfold pushPackToTopFrame
  split <;> rfl

theorem level_removeFromChangedVarsP (pk : Name) (s : Session) :
    (removeFromChangedVarsP pk s).level = s.level := by
  unfold removeFromChangedVarsP
  split <;> rfl

theorem level_removeObjectVarP (pk vk : Name) (s : Session) :
    (removeObjectVarP pk vk s).level = s.level := rfl

theorem level_removeObjectPackP (pk : Name) (s : Session) :
    (removeObjectPackP pk s).level = s.level := by
  unfold removeObjectPackP
  split <;> simp [level_removeFromChangedVarsP]

theorem level_releaseSavepointVarP (pk vk : Name) (s : Session) :
    (releaseSavepointVarP pk vk s).level = s.level := by
  unfold releaseSavepointVarP
  split
  · rfl
  · dsimp only
    split <;>
      simp [apply_ite Session.level, level_modifyVarInP, level_removeObjectVarP, modifyTransVarP]

theorem level_releaseSavepointPackP (pk : Name) (s : Session) :
    (releaseSavepointPackP pk s).level = s.level := by
  unfold releaseSavepointPackP
  split
  · rfl
  · dsimp only
    split <;>
      simp [apply_ite Session.level, level_modifyPackageP, level_removeObjectPackP]

theorem level_rollbackVarStepP (pk vk : Name) (s : Session) :
    (rollbackVarStepP pk vk s).level = s.level := by
  unfold rollbackVarStepP
  split
  · rfl
  · dsimp only
    split <;> rfl

theorem level_rollbackPackStepP (pk : Name) (s : Session) :
    (rollbackPackStepP pk s).level = s.level := by
  unfold rollbackPackStepP
  split
  · rfl
  · split <;> rfl

theorem level_releaseVarStepP (pk vk : Name) (s : Session) :
    (releaseVarStepP pk vk s).level = s.level := by
  unfold releaseVarStepP
  split
  · rfl
  · split
    · rfl
    · dsimp only
      split <;>
        simp [apply_ite Session.level, level_releaseSavepointVarP, level_pushVarToTopFrame,
              level_modifyVarInP, modifyTransVarP]

theorem level_releasePackStepP (pk : Name) (s : Session) :
    (releasePackStepP pk s).level = s.level := by
  unfold releasePackStepP
  split
  · rfl
  · dsimp only
    split
    · simp [level_releaseSavepointPackP]
    · simp [level_modifyPackageP, level_pushPackToTopFrame]

theorem level_finalizeChangesP (s : Session) :
    (finalizeChangesP s).level = s.level := by
  unfold finalizeChangesP
  dsimp only
  split <;> split <;> rfl

theorem level_foldl {α : Type} (g : Session → α → Session)
    (h : ∀ t x, (g t x).level = t.level) (l : List α) (s : Session) :
    (l.foldl g s).level = s.level := by
  induction l generalizing s with
  | nil => rfl
  | cons x r ih => simpa [List.foldl, h] using ih (g s x)

theorem level_processChangesP (act : Action) (s : Session) :
    (processChangesP act s).level = s.level := by
  unfold processChangesP
  split
  · rw [level_finalizeChangesP]
    rw [level_foldl _
      (fun t x => by cases act <;> simp [level_rollbackPackStepP, level_releasePackStepP])]
    rw [level_foldl _
      (fun t x => by cases act <;> simp [level_rollbackVarStepP, level_releaseVarStepP])]
  · rfl

/-- The teardown at the end of `processChanges`: the processing either
resets the whole module state or leaves entries in the registry. -/
theorem finalizeChangesP_cases (s : Session) :
    finalizeChangesP s =
      { packagesHash := none, changesStack := none,
        lastPackage := none, lastVariable := none, level := s.level } ∨
    (finalizeChangesP s).packagesHash.getD [] ≠ [] := by
  unfold finalizeChangesP
  dsimp only
  by_cases h1 : s.changesStack = some ([] : List ChangesStackNode)
  · rw [if_pos h1]
    split
    · exact Or.inl rfl
    · rename_i h2
      exact Or.inr fun hc => h2 (by simp [hc])
  · rw [if_neg h1]
    split
    · exact Or.inl rfl
    · rename_i h2
      exact Or.inr fun hc => h2 (by simp [hc])

/-- At top level (nesting level 1), an emptied registry forces the
teardown branch to yield exactly the initial session. -/
theorem finalizeChangesP_teardown_of_level (t : Session) (hlt : t.level = 1)
    (h : (finalizeChangesP t).packagesHash.getD [] = []) :
    finalizeChangesP t = initialSession := by
  rcases finalizeChangesP_cases t with hr | hr
  · rw [hr, hlt]
    rfl
  · exact absurd h hr

/-! ## Reduction lemmas for the fallible operations -/

theorem getKeyFromName_ok (n : Name) (s : Session) (h : n.utf8ByteSize < NAMEDATALEN - 1) :
    getKeyFromName n s = (.ok n, s) := by
  unfold getKeyFromName
  rw [if_neg (Nat.not_le.mpr h)]

theorem getKeyFromName_tooLong (n : Name) (s : Session) (h : NAMEDATALEN - 1 ≤ n.utf8ByteSize) :
    getKeyFromName n s = (.error .nameTooLong, s) := by
  unfold getKeyFromName
  rw [if_pos h]

theorem packagesHash_isSome_of_lookup (s : Session) (pk : Name) (pack : Package)
    (h : lookupPackage s pk = some pack) : s.packagesHash.isSome = true := by
  unfold lookupPackage at h
  cases hh : s.packagesHash with
  | none => rw [hh] at h; exact absurd h (by simp [aget])
  | some l => rfl

theorem ensurePackagesHashExists_noop (s : Session) (h : s.packagesHash.isSome = true) :
    ensurePackagesHashExists s = (.ok (), s) := by
  unfold ensurePackagesHashExists modifyS
  simp [h]

theorem findOrCreatePackage_found_valid (s : Session) (pk : Name) (pack : Package)
    (create strict : Bool)
    (hpack : lookupPackage s pk = some pack)
    (hvalid : (headPackState pack).is_valid = true) :
    findOrCreatePackage pk create strict s = (.ok (some pk), s) := by
  unfold lookupPackage at hpack
  unfold findOrCreatePackage
  simp only [bind_apply, getS_apply]
  rw [hpack]
  dsimp only
  rw [if_pos hvalid]
  rfl

theorem getPackageByName_found_valid (s : Session) (pk : Name) (pack : Package)
    (create strict : Bool)
    (hlen : pk.utf8ByteSize < NAMEDATALEN - 1)
    (hpack : lookupPackage s pk = some pack)
    (hvalid : (headPackState pack).is_valid = true) :
    getPackageByName pk create strict s = (.ok (some pk), s) := by
  obtain ⟨l, hl⟩ := Option.isSome_iff_exists.mp (packagesHash_isSome_of_lookup s pk pack hpack)
  have hfind := findOrCreatePackage_found_valid s pk pack create strict hpack hvalid
  unfold getPackageByName
  simp only [bind_apply, getKeyFromName_ok pk s hlen]
  cases create with
  | false =>
    simp only [Bool.false_eq_true, if_false, bind_apply, getS_apply, hl]
    dsimp only [Option.isNone]
    exact hfind
  | true =>
    simp only [if_true, bind_apply,
      ensurePackagesHashExists_noop s (packagesHash_isSome_of_lookup s pk pack hpack)]
    exact hfind

theorem getPackageByName_absent (s : Session) (pk : Name)
    (hlen : pk.utf8ByteSize < NAMEDATALEN - 1)
    (hnone : lookupPackage s pk = none) :
    getPackageByName pk false true s = (.error .pkgNotFound, s) ∧
    getPackageByName pk false false s = (.ok none, s) := by
  unfold lookupPackage at hnone
  unfold getPackageByName findOrCreatePackage
  cases hh : s.packagesHash with
  | none =>
    simp [bind_apply, getS_apply, pure_apply, throwE, hh, getKeyFromName_ok pk s hlen]
  | some l =>
    rw [hh] at hnone
    simp only [Option.getD_some] at hnone
    simp [bind_apply, getS_apply, pure_apply, throwE, hh, hnone, getKeyFromName_ok pk s hlen]

theorem getPackageByName_invalid (s : Session) (pk : Name) (pack : Package)
    (hlen : pk.utf8ByteSize < NAMEDATALEN - 1)
    (hpack : lookupPackage s pk = some pack)
    (hinv : (headPackState pack).is_valid = false) :
    getPackageByName pk false true s = (.error .pkgNotFound, s) ∧
    getPackageByName pk false false s = (.ok none, s) := by
  obtain ⟨l, hl⟩ := Option.isSome_iff_exists.mp (packagesHash_isSome_of_lookup s pk pack hpack)
  unfold lookupPackage at hpack
  rw [hl] at hpack
  simp only [Option.getD_some] at hpack
  unfold getPackageByName findOrCreatePackage
  simp [bind_apply, getS_apply, pure_apply, throwE, hl, hpack, hinv, getKeyFromName_ok pk s hlen]

theorem getPackageByName_create_ok (s : Session) (pk : Name)
    (hlen : pk.utf8ByteSize < NAMEDATALEN - 1) :
    (getPackageByName pk true false s).1 = .ok (some pk) := by
  unfold getPackageByName findOrCreatePackage ensurePackagesHashExists
  simp only [bind_apply, modifyS_apply, getS_apply, getKeyFromName_ok pk s hlen, if_true]
  split
  · rcases hm : aget pk (s.packagesHash.getD []) with _ | pack
    · simp [hm, bind_apply, modifyS_apply, pure_apply]
    · simp only [hm]
      split
      · simp [pure_apply]
      · simp [bind_apply, modifyS_apply, pure_apply]
  · simp [aget, bind_apply, modifyS_apply, pure_apply]

theorem createVariableInternal_typeMismatch (s : Session) (pk vn : Name) (pack : Package)
    (v : Variable) (typid' : Nat) (tr : Bool)
    (hvlen : vn.utf8ByteSize < NAMEDATALEN - 1)
    (hpack : lookupPackage s pk = some pack)
    (hv : aget vn (pack_htab pack tr) = some v)
    (hopp : aget vn (pack_htab pack (!tr)) = none)
    (hne : v.typid ≠ typid') :
    createVariableInternal pk vn typid' tr s = (.error .typeMismatch, s) := by
  unfold createVariableInternal
  simp only [bind_apply, getKeyFromName_ok vn s hvlen, getS_apply]
  rw [hpack]
  dsimp only
  rw [hopp]
  dsimp only [Option.isSome]
  rw [hv]
  dsimp only
  rw [if_pos hne]
  rfl

theorem createVariableInternal_kindMismatch (s : Session) (pk vn : Name) (pack : Package)
    (w : Variable) (typid' : Nat) (tr : Bool)
    (hvlen : vn.utf8ByteSize < NAMEDATALEN - 1)
    (hpack : lookupPackage s pk = some pack)
    (hrev : aget vn (pack_htab pack (!tr)) = some w) :
    createVariableInternal pk vn typid' tr s = (.error .kindMismatch, s) := by
  unfold createVariableInternal
  simp only [bind_apply, getKeyFromName_ok vn s hvlen, getS_apply]
  rw [hpack]
  dsimp only
  rw [hrev]
  dsimp only [Option.isSome]
  rfl

theorem getVariableInternal_typeMismatch (s : Session) (pk vn : Name) (pack : Package)
    (v : Variable) (flag : Bool) (typid' : Nat) (strict : Bool)
    (hvlen : vn.utf8ByteSize < NAMEDATALEN - 1)
    (hpack : lookupPackage s pk = some pack)
    (hfound : lookupVarEither s pk vn = some (v, flag))
    (hne : v.typid ≠ typid') :
    getVariableInternal pk vn typid' strict s = (.error .typeMismatch, s) := by
  unfold getVariableInternal
  simp only [bind_apply, getKeyFromName_ok vn s hvlen, getS_apply]
  rw [hpack]
  dsimp only
  rw [hfound]
  dsimp only
  rw [if_pos hne]
  rfl

theorem getVariableInternal_absent (s : Session) (pk vn : Name) (pack : Package)
    (typid : Nat)
    (hvlen : vn.utf8ByteSize < NAMEDATALEN - 1)
    (hpack : lookupPackage s pk = some pack)
    (hmiss : lookupVarEither s pk vn = none) :
    getVariableInternal pk vn typid true s = (.error .varNotFound, s) ∧
    getVariableInternal pk vn typid false s = (.ok none, s) := by
  unfold getVariableInternal
  simp only [bind_apply, getKeyFromName_ok vn s hvlen, getS_apply]
  rw [hpack]
  dsimp only
  rw [hmiss]
  exact ⟨rfl, rfl⟩

theorem getVariableInternal_invalid (s : Session) (pk vn : Name) (pack : Package)
    (v : Variable) (flag : Bool) (typid : Nat)
    (hvlen : vn.utf8ByteSize < NAMEDATALEN - 1)
    (hpack : lookupPackage s pk = some pack)
    (hfound : lookupVarEither s pk vn = some (v, flag))
    (htyp : v.typid = typid)
    (hinv : (headVarState v).is_valid = false) :
    getVariableInternal pk vn typid true s = (.error .varNotFound, s) ∧
    getVariableInternal pk vn typid false s = (.ok (some v), s) := by
  unfold getVariableInternal
  simp only [bind_apply, getKeyFromName_ok vn s hvlen, getS_apply]
  rw [hpack]
  dsimp only
  rw [hfound]
  dsimp only
  rw [if_neg (fun h => h htyp)]
  constructor
  · simp [hinv, throwE]
  · simp [pure_apply, htyp]

/-- Resolution through both maps matches the per-map hypotheses. -/
theorem lookupVarEither_of_htab (s : Session) (pk vn : Name) (pack : Package)
    (v : Variable) (tr : Bool)
    (hpack : lookupPackage s pk = some pack)
    (hv : aget vn (pack_htab pack tr) = some v)
    (hopp : aget vn (pack_htab pack (!tr)) = none) :
    lookupVarEither s pk vn = some (v, tr) := by
  unfold lookupVarEither
  rw [hpack]
  dsimp only
  cases tr with
  | false =>
    rw [show aget vn pack.varHashRegular = some v from hv]
  | true =>
    rw [show aget vn pack.varHashRegular = none from hopp]
    dsimp only
    rw [show aget vn pack.varHashTransact = some v from hv]

/-! ## The claims -/

/-- Claim C1: for a transactional scalar variable `x`, after
`begin(L1); set x := 1; begin(L2); set x := 2`, aborting level L2
restores `x` to 1 (the value saved at L1), and a subsequent commit of L1
leaves `x` equal to 1 after the transaction completes. -/
theorem claimC1_nested_abort_restores :
    (variable_get "p" "x" 23 true (nestedSetAbort 1 2)).1 = .ok (some 1) ∧
    (variable_get "p" "x" 23 true (commitTopLevelP (nestedSetAbort 1 2))).1 = .ok (some 1) := by
  decide

/-- Claim C2 (counterexample): `x` is set at level 1 and at level 3, and
level 3 commits while its parent level 2 never registered a change of
`x`.  The claim says the superseded second-from-head entry is permanently
dropped for every object in the committed frame, which would leave `x`
with a single history entry; the code instead keeps both entries (it only
re-lists `x` in the parent's frame and decrements the head entry's
level). -/
theorem claimC2_counterexample :
    (lookupTransVar skipLevelCommit "p" "x").map Variable.states =
      some [{ level := 2, is_valid := true, value := .scalar (some 3) },
            { level := 1, is_valid := true, value := .scalar (some 1) }] ∧
    ¬ (lookupTransVar skipLevelCommit "p" "x").map (fun v => v.states.length) = some 1 := by
  decide

/-- Claim C2 (amended): when level L commits, each object — variable or
package — listed in L's frame is finalised without any history rescan (a
variable whose package was invalidated at this level is first marked
invalid; the variable statements below are for variables of still-valid
packages).  If no frame remains (top-level commit) or the entry second
from head carries the parent level (the parent already registered a
change): the second-from-head entry, if any, is permanently dropped, and
then the object is destroyed if its remaining head entry is invalid and
alone, else the head entry's stamped level is decremented.  Otherwise — a
frame remains and the parent registered no change — the history is kept
intact, the head entry's level is decremented, and the object is
re-listed in the parent's frame.  The eight conjuncts cover, in order:
variable drop-and-keep, variable drop-and-destroy, variable with a lone
entry at top-level commit (kept when valid, destroyed when invalid),
variable re-list; then the same four cases for packages. -/
theorem claimC2_amended (s : Session) (pk vk : Name) :
    (∀ (pack : Package) (v : Variable) (st prev : VarState) (rest : List VarState),
      lookupPackage s pk = some pack →
      (headPackState pack).is_valid = true →
      aget vk pack.varHashTransact = some v →
      v.states = st :: prev :: rest →
      ((s.changesStack.getD []).isEmpty = true ∨ prev.level = s.level - 1) →
      (st.is_valid = true ∨ rest ≠ []) →
      lookupTransVar (releaseVarStepP pk vk s) pk vk =
        some { v with states := { st with level := st.level - 1 } :: rest } ∧
      (releaseVarStepP pk vk s).changesStack = s.changesStack) ∧
    (∀ (pack : Package) (v : Variable) (st prev : VarState),
      lookupPackage s pk = some pack →
      (headPackState pack).is_valid = true →
      aget vk pack.varHashTransact = some v →
      (pack.varHashTransact.map Prod.fst).Nodup →
      v.states = [st, prev] →
      ((s.changesStack.getD []).isEmpty = true ∨ prev.level = s.level - 1) →
      st.is_valid = false →
      lookupTransVar (releaseVarStepP pk vk s) pk vk = none ∧
      (releaseVarStepP pk vk s).changesStack = s.changesStack) ∧
    (∀ (pack : Package) (v : Variable) (st : VarState),
      lookupPackage s pk = some pack →
      (headPackState pack).is_valid = true →
      aget vk pack.varHashTransact = some v →
      (pack.varHashTransact.map Prod.fst).Nodup →
      v.states = [st] →
      (s.changesStack.getD []).isEmpty = true →
      (st.is_valid = true →
        lookupTransVar (releaseVarStepP pk vk s) pk vk =
          some { v with states := [{ st with level := st.level - 1 }] }) ∧
      (st.is_valid = false →
        lookupTransVar (releaseVarStepP pk vk s) pk vk = none)) ∧
    (∀ (pack : Package) (v : Variable) (st : VarState) (rest : List VarState)
       (csn : ChangesStackNode) (crest : List ChangesStackNode),
      lookupPackage s pk = some pack →
      (headPackState pack).is_valid = true →
      aget vk pack.varHashTransact = some v →
      v.states = st :: rest →
      s.changesStack = some (csn :: crest) →
      isChangedInUpperVar v s.level = false →
      lookupTransVar (releaseVarStepP pk vk s) pk vk =
        some { v with states := { st with level := st.level - 1 } :: rest } ∧
      (releaseVarStepP pk vk s).changesStack =
        some ({ csn with changedVarsList := (pk, vk) :: csn.changedVarsList } :: crest)) ∧
    (∀ (p : Package) (st prev : PackState) (rest : List PackState),
      lookupPackage s pk = some p →
      p.packHistory = st :: prev :: rest →
      ((s.changesStack.getD []).isEmpty = true ∨ prev.level = s.level - 1) →
      (st.is_valid = true ∨ rest ≠ []) →
      lookupPackage (releasePackStepP pk s) pk =
        some { p with packHistory := { st with level := st.level - 1 } :: rest } ∧
      (releasePackStepP pk s).changesStack = s.changesStack) ∧
    (∀ (p : Package) (st prev : PackState),
      lookupPackage s pk = some p →
      ((s.packagesHash.getD []).map Prod.fst).Nodup →
      p.packHistory = [st, prev] →
      ((s.changesStack.getD []).isEmpty = true ∨ prev.level = s.level - 1) →
      st.is_valid = false →
      lookupPackage (releasePackStepP pk s) pk = none) ∧
    (∀ (p : Package) (st : PackState),
      lookupPackage s pk = some p →
      ((s.packagesHash.getD []).map Prod.fst).Nodup →
      p.packHistory = [st] →
      (s.changesStack.getD []).isEmpty = true →
      (st.is_valid = true →
        lookupPackage (releasePackStepP pk s) pk =
          some { p with packHistory := [{ st with level := st.level - 1 }] }) ∧
      (st.is_valid = false →
        lookupPackage (releasePackStepP pk s) pk = none)) ∧
    (∀ (p : Package) (st : PackState) (rest : List PackState)
       (csn : ChangesStackNode) (crest : List ChangesStackNode),
      lookupPackage s pk = some p →
      p.packHistory = st :: rest →
      s.changesStack = some (csn :: crest) →
      isChangedInUpperPack p s.level = false →
      lookupPackage (releasePackStepP pk s) pk =
        some { p with packHistory := { st with level := st.level - 1 } :: rest } ∧
      (releasePackStepP pk s).changesStack =
        some ({ csn with changedPacksList := pk :: csn.changedPacksList } :: crest)) := by
  refine ⟨?_, ?_, ?_, ?_, ?_, ?_, ?_, ?_⟩
  · -- variable: drop the superseded entry, keep the object, decrement.
    intro pack v st prev rest hpk hpvalid hv hstates hbr hkeep
    have hlv : lookupTransVar s pk vk = some v := by
      unfold lookupTransVar
      rw [hpk]
      exact hv
    unfold releaseVarStepP
    rw [hpk]
    dsimp only
    rw [hv]
    dsimp only
    rw [if_pos hpvalid, hlv]
    dsimp only
    rw [if_pos (by rcases hbr with h | h <;> simp [h, isChangedInUpperVar, hstates])]
    unfold releaseSavepointVarP
    rw [hlv]
    dsimp only
    rw [hstates]
    dsimp only
    cases rest with
    | nil =>
      dsimp only
      have hval : st.is_valid = true := by
        rcases hkeep with h | h
        · exact h
        · exact absurd rfl h
      rw [if_pos hval]
      constructor
      · rw [lookupTransVar_modifyTransVarP, lookupTransVar_modifyTransVarP, hlv]
        simp [setVarHeadLevel, setVarHead]
      · rfl
    | cons r rs =>
      dsimp only
      constructor
      · rw [lookupTransVar_modifyTransVarP, lookupTransVar_modifyTransVarP, hlv]
        simp [setVarHeadLevel, setVarHead]
      · rfl
  · -- variable: drop the superseded entry, then destroy (head invalid, alone).
    intro pack v st prev hpk hpvalid hv hnd hstates hbr hinv
    have hlv : lookupTransVar s pk vk = some v := by
      unfold lookupTransVar
      rw [hpk]
      exact hv
    unfold releaseVarStepP
    rw [hpk]
    dsimp only
    rw [hv]
    dsimp only
    rw [if_pos hpvalid, hlv]
    dsimp only
    rw [if_pos (by rcases hbr with h | h <;> simp [h, isChangedInUpperVar, hstates])]
    unfold releaseSavepointVarP
    rw [hlv]
    dsimp only
    rw [hstates]
    dsimp only
    rw [if_neg (by simp [hinv])]
    constructor
    · have hpk1 : lookupPackage
          (modifyTransVarP pk vk (fun w => { w with states := [st] }) s) pk =
          some { pack with varHashTransact :=
                   (amod vk (fun w => { w with states := [st] }) pack.varHashTransact) } := by
        unfold modifyTransVarP modifyVarInP
        rw [lookupPackage_modifyPackageP, hpk]
        rfl
      have hnd1 : ((amod vk (fun w => { w with states := [st] })
          pack.varHashTransact).map Prod.fst).Nodup := by
        rw [amod_keys]
        exact hnd
      exact lookupTransVar_removeObjectVarP pk vk _ _ hpk1 hnd1
    · rfl
  · -- variable with a single entry at top-level commit.
    intro pack v st hpk hpvalid hv hnd hstates hstack
    have hlv : lookupTransVar s pk vk = some v := by
      unfold lookupTransVar
      rw [hpk]
      exact hv
    unfold releaseVarStepP
    rw [hpk]
    dsimp only
    rw [hv]
    dsimp only
    rw [if_pos hpvalid, hlv]
    dsimp only
    rw [if_pos (by simp [hstack])]
    unfold releaseSavepointVarP
    rw [hlv]
    dsimp only
    rw [hstates]
    dsimp only
    constructor
    · intro hval
      rw [if_pos hval]
      rw [lookupTransVar_modifyTransVarP, lookupTransVar_modifyTransVarP, hlv]
      simp [setVarHeadLevel, setVarHead]
    · intro hinv
      rw [if_neg (by simp [hinv])]
      have hpk1 : lookupPackage
          (modifyTransVarP pk vk (fun w => { w with states := [st] }) s) pk =
          some { pack with varHashTransact :=
                   (amod vk (fun w => { w with states := [st] }) pack.varHashTransact) } := by
        unfold modifyTransVarP modifyVarInP
        rw [lookupPackage_modifyPackageP, hpk]
        rfl
      have hnd1 : ((amod vk (fun w => { w with states := [st] })
          pack.varHashTransact).map Prod.fst).Nodup := by
        rw [amod_keys]
        exact hnd
      exact lookupTransVar_removeObjectVarP pk vk _ _ hpk1 hnd1
  · -- variable: keep the history and re-list in the parent frame.
    intro pack v st rest csn crest hpk hpvalid hv hstates hstack hupper
    have hlv : lookupTransVar s pk vk = some v := by
      unfold lookupTransVar
      rw [hpk]
      exact hv
    unfold releaseVarStepP
    rw [hpk]
    dsimp only
    rw [hv]
    dsimp only
    rw [if_pos hpvalid, hlv]
    dsimp only
    rw [if_neg (by simp [hstack, hupper])]
    constructor
    · rw [lookupTransVar_modifyTransVarP, lookupTransVar_pushVarToTopFrame, hlv]
      simp [setVarHeadLevel, setVarHead, headVarState, hstates]
    · show (pushVarToTopFrame pk vk s).changesStack = _
      unfold pushVarToTopFrame
      rw [hstack]
  · -- package: drop the superseded entry, keep the object, decrement.
    intro p st prev rest hpk hhist hbr hkeep
    unfold releasePackStepP
    rw [hpk]
    dsimp only
    rw [if_pos (by rcases hbr with h | h <;> simp [h, isChangedInUpperPack, hhist])]
    unfold releaseSavepointPackP
    rw [hpk]
    dsimp only
    rw [hhist]
    dsimp only
    cases rest with
    | nil =>
      dsimp only
      have hval : st.is_valid = true := by
        rcases hkeep with h | h
        · exact h
        · exact absurd rfl h
      rw [if_pos hval]
      constructor
      · rw [lookupPackage_modifyPackageP, lookupPackage_modifyPackageP, hpk]
        simp [setPackHeadLevel, setPackHead]
      · rfl
    | cons r rs =>
      dsimp only
      constructor
      · rw [lookupPackage_modifyPackageP, lookupPackage_modifyPackageP, hpk]
        simp [setPackHeadLevel, setPackHead]
      · rfl
  · -- package: drop the superseded entry, then destroy (head invalid, alone).
    intro p st prev hpk hnd hhist hbr hinv
    unfold releasePackStepP
    rw [hpk]
    dsimp only
    rw [if_pos (by rcases hbr with h | h <;> simp [h, isChangedInUpperPack, hhist])]
    unfold releaseSavepointPackP
    rw [hpk]
    dsimp only
    rw [hhist]
    dsimp only
    rw [if_neg (by simp [hinv])]
    exact lookupPackage_removeObjectPackP pk _ (nodup_keys_modifyPackageP pk _ s hnd)
  · -- package with a single entry at top-level commit.
    intro p st hpk hnd hhist hstack
    unfold releasePackStepP
    rw [hpk]
    dsimp only
    rw [if_pos (by simp [hstack])]
    unfold releaseSavepointPackP
    rw [hpk]
    dsimp only
    rw [hhist]
    dsimp only
    constructor
    · intro hval
      rw [if_pos hval]
      rw [lookupPackage_modifyPackageP, lookupPackage_modifyPackageP, hpk]
      simp [setPackHeadLevel, setPackHead]
    · intro hinv
      rw [if_neg (by simp [hinv])]
      exact lookupPackage_removeObjectPackP pk _ (nodup_keys_modifyPackageP pk _ s hnd)
  · -- package: keep the history and re-list in the parent frame.
    intro p st rest csn crest hpk hhist hstack hupper
    unfold releasePackStepP
    rw [hpk]
    dsimp only
    rw [if_neg (by simp [hstack, hupper])]
    constructor
    · rw [lookupPackage_modifyPackageP, lookupPackage_pushPackToTopFrame, hpk]
      simp [setPackHeadLevel, setPackHead, headPackState, hhist]
    · show (pushPackToTopFrame pk s).changesStack = _
      unfold pushPackToTopFrame
      rw [hstack]

/-- Claim C2 (amended), witnessed: all eight commit-step cases evaluated
on hand-built sessions — variable drop-and-keep, variable
drop-and-destroy, lone-entry variable at top-level commit (valid kept and
decremented, invalid destroyed), variable re-list; and the same four
cases for packages. -/
theorem claimC2_amended_witness :
    (lookupTransVar (releaseVarStepP "p" "x" upperChangedSession) "p" "x" =
       some { typid := 23, is_transactional := true,
              states := [{ level := 2, is_valid := true, value := .scalar (some 7) }] } ∧
     (releaseVarStepP "p" "x" upperChangedSession).changesStack =
       upperChangedSession.changesStack) ∧
    (lookupTransVar (releaseVarStepP "p" "x" invalidHeadVarSession) "p" "x" = none ∧
     (releaseVarStepP "p" "x" invalidHeadVarSession).changesStack =
       invalidHeadVarSession.changesStack) ∧
    (lookupTransVar (releaseVarStepP "p" "x" topCommitVarSession) "p" "x" =
       some { typid := 23, is_transactional := true,
              states := [{ level := 0, is_valid := true, value := .scalar (some 1) }] }) ∧
    (lookupTransVar (releaseVarStepP "q" "y" topDestroySession) "q" "y" = none) ∧
    (lookupTransVar (releaseVarStepP "p" "x" upperUnchangedSession) "p" "x" =
       some { typid := 23, is_transactional := true,
              states := [{ level := 2, is_valid := true, value := .scalar (some 7) },
                         { level := 1, is_valid := true, value := .scalar (some 5) }] } ∧
     (releaseVarStepP "p" "x" upperUnchangedSession).changesStack =
       some [{ changedVarsList := [("p", "x")], changedPacksList := [] }]) ∧
    (lookupPackage (releasePackStepP "p" packReleaseSession) "p" =
       some { varHashRegular := [], varHashTransact := [],
              packHistory := [{ level := 1, is_valid := true }] } ∧
     (releasePackStepP "p" packReleaseSession).changesStack =
       packReleaseSession.changesStack) ∧
    (lookupPackage (releasePackStepP "p" packDestroySession) "p" = none) ∧
    (lookupPackage (releasePackStepP "p" topCommitVarSession) "p" =
       some { varHashRegular := [],
              varHashTransact := [("x",
                { typid := 23, is_transactional := true,
                  states := [{ level := 1, is_valid := true, value := .scalar (some 1) }] })],
              packHistory := [{ level := 0, is_valid := true }] }) ∧
    (lookupPackage (releasePackStepP "r" topDestroySession) "r" = none) ∧
    (lookupPackage (releasePackStepP "p" packRelistSession) "p" =
       some { varHashRegular := [], varHashTransact := [],
              packHistory := [{ level := 1, is_valid := true }] } ∧
     (releasePackStepP "p" packRelistSession).changesStack =
       some [{ changedVarsList := [], changedPacksList := ["p"] }]) :=
  ⟨(claimC2_amended upperChangedSession "p" "x").1 _ _ _ _ _
     rfl rfl rfl rfl (Or.inr rfl) (Or.inl rfl),
   (claimC2_amended invalidHeadVarSession "p" "x").2.1 _ _ _ _
     rfl rfl rfl (by decide) rfl (Or.inr rfl) rfl,
   ((claimC2_amended topCommitVarSession "p" "x").2.2.1 _ _ _
     rfl rfl rfl (by decide) rfl rfl).1 rfl,
   ((claimC2_amended topDestroySession "q" "y").2.2.1 _ _ _
     rfl rfl rfl (by decide) rfl rfl).2 rfl,
   (claimC2_amended upperUnchangedSession "p" "x").2.2.2.1 _ _ _ _ _ _
     rfl rfl rfl rfl rfl rfl,
   (claimC2_amended packReleaseSession "p" "x").2.2.2.2.1 _ _ _ _
     rfl rfl (Or.inr rfl) (Or.inl rfl),
   (claimC2_amended packDestroySession "p" "x").2.2.2.2.2.1 _ _ _
     rfl (by decide) rfl (Or.inr rfl) rfl,
   ((claimC2_amended topCommitVarSession "p" "x").2.2.2.2.2.2.1 _ _
     rfl (by decide) rfl rfl).1 rfl,
   ((claimC2_amended topDestroySession "r" "y").2.2.2.2.2.2.1 _ _
     rfl (by decide) rfl rfl).2 rfl,
   (claimC2_amended packRelistSession "p" "x").2.2.2.2.2.2.2 _ _ _ _ _
     rfl rfl rfl rfl⟩

/-- Claim C3 (counterexample): a package created inside an aborted
subtransaction (and listed in that level's frame) does not have its head
history entry discarded: `rollbackSavepoint` leaves a package whose
current state is valid untouched, so `p` survives the abort with its
single valid history entry, contradicting "every object listed in L's
frame has its head history entry discarded ... the object is detached
from the registry and destroyed entirely". -/
theorem claimC3_counterexample :
    lookupPackage createdThenAborted "p" =
      some { varHashRegular := [], varHashTransact := [],
             packHistory := [{ level := 2, is_valid := true }] } ∧
    createdThenAborted.changesStack = some [emptyFrame] := by
  decide

/-- Claim C3 (amended): when level L aborts, a VARIABLE listed in L's
frame has its head history entry discarded and the previous entry
reinstated as head; if that leaves zero entries the variable is detached
from the registry and destroyed.  A PACKAGE is rolled back only when its
current state is invalid — then the head entry is discarded and the
regular map resurrected empty — while a package whose current state is
valid is left entirely untouched by the abort. -/
theorem claimC3_amended (s : Session) (pk vk : Name) (pack : Package) (v : Variable)
    (st : VarState) (rest : List VarState)
    (hpk : lookupPackage s pk = some pack)
    (hv : aget vk pack.varHashTransact = some v)
    (hnd : (pack.varHashTransact.map Prod.fst).Nodup)
    (hstates : v.states = st :: rest) :
    (rest ≠ [] →
      lookupTransVar (rollbackVarStepP pk vk s) pk vk = some { v with states := rest }) ∧
    (rest = [] →
      lookupTransVar (rollbackVarStepP pk vk s) pk vk = none) ∧
    ((headPackState pack).is_valid = true → rollbackPackStepP pk s = s) ∧
    ((headPackState pack).is_valid = false →
      lookupPackage (rollbackPackStepP pk s) pk =
        some { pack with packHistory := pack.packHistory.tail, varHashRegular := [] }) := by
  have hlv : lookupTransVar s pk vk = some v := by
    unfold lookupTransVar
    rw [hpk]
    exact hv
  refine ⟨?_, ?_, ?_, ?_⟩
  · intro hne
    unfold rollbackVarStepP
    rw [hlv]
    dsimp only
    rw [hstates]
    cases rest with
    | nil => exact absurd rfl hne
    | cons r rs =>
      dsimp only [List.tail_cons, List.isEmpty]
      rw [if_neg (by simp)]
      rw [lookupTransVar_modifyTransVarP, hlv]
      simp [hstates]
  · intro hempty
    subst hempty
    unfold rollbackVarStepP
    rw [hlv]
    dsimp only
    rw [hstates]
    dsimp only [List.tail_cons, List.isEmpty]
    rw [if_pos rfl]
    unfold removeObjectVarP lookupTransVar modifyTransVarP modifyVarInP
    rw [lookupPackage_modifyPackageP, lookupPackage_modifyPackageP, hpk]
    simp [aget_adel_of_nodup, amod_keys, hnd]
  · intro hvalid
    unfold rollbackPackStepP
    rw [hpk]
    dsimp only
    rw [if_pos hvalid]
  · intro hinvalid
    unfold rollbackPackStepP
    rw [hpk]
    dsimp only
    rw [if_neg (by simp [hinvalid])]
    rw [lookupPackage_modifyPackageP, hpk]
    rfl

/-- Claim C3 (amended), witnessed: rolling back a variable with an older
entry reinstates it; rolling back a variable with a single entry destroys
it; a valid package is untouched; an invalidated package pops its head
entry and gets an empty regular map. -/
theorem claimC3_amended_witness :
    (lookupTransVar (rollbackVarStepP "p" "x" upperChangedSession) "p" "x" =
      some { typid := 23, is_transactional := true,
             states := [{ level := 2, is_valid := true, value := .scalar (some 5) }] }) ∧
    (rollbackPackStepP "p" upperChangedSession = upperChangedSession) ∧
    (lookupTransVar (rollbackVarStepP "p" "x" pendingRemovalSession) "p" "x" = none) ∧
    (lookupPackage (rollbackPackStepP "p" pendingRemovalSession) "p" =
      some { varHashRegular := [],
             varHashTransact := [("x",
               { typid := 23, is_transactional := true,
                 states := [{ level := 2, is_valid := true, value := .scalar (some 1) }] })],
             packHistory := [{ level := 1, is_valid := true }] }) :=
  ⟨(claimC3_amended upperChangedSession "p" "x" _ _ _ _
      rfl rfl (by decide) rfl).1 (by decide),
   (claimC3_amended upperChangedSession "p" "x" _ _ _ _
      rfl rfl (by decide) rfl).2.2.1 rfl,
   (claimC3_amended pendingRemovalSession "p" "x" _ _ _ _
      rfl rfl (by decide) rfl).2.1 rfl,
   (claimC3_amended pendingRemovalSession "p" "x" _ _ _ _
      rfl rfl (by decide) rfl).2.2.2 rfl⟩

/-- Claim C4 (counterexample): a package that survives a subtransaction
abort keeps a state stamped with the dead level 2; removing it at a new
level 2 then skips the savepoint, and after a resurrection at level 1 and
another removal at level 2 its history carries the level stamps
`[2, 1, 2]` — two entries for level 2, contradicting "every object's
state history always contains at most one entry per nesting level". -/
theorem claimC4_counterexample :
    (lookupPackage staleLevelScenario "p").map (fun p => p.packHistory.map PackState.level) =
      some [2, 1, 2] ∧
    (lookupPackage staleLevelScenario "p").map
      (fun p => (p.packHistory.filter (fun st => st.level == 2)).length) = some 2 := by
  decide

/-- Claim C4 (amended): registering a change of a transactional variable
twice at the same nesting level before any finalize at that level creates
exactly one history entry stamped with that level — the second
registration is a no-op (re-running the same `set` does not change the
session at all); the at-most-one-entry-per-level invariant, however, can
be violated for a package that survived a subtransaction abort with a
stale level stamp. -/
theorem claimC4_amended :
    (lookupTransVar doubleSetScenario "p" "x").map Variable.states =
      some [{ level := 2, is_valid := true, value := .scalar (some 3) },
            { level := 1, is_valid := true, value := .scalar (some 1) }] ∧
    doubleSetScenario.changesStack =
      some [{ changedVarsList := [("p", "x")], changedPacksList := [] },
            { changedVarsList := [("p", "x")], changedPacksList := ["p"] }] ∧
    (variable_set "p" "x" 23 (some 3) true doubleSetScenario).2 = doubleSetScenario := by
  decide

/-- Claim C5: after `removePackage(p)` inside a subtransaction, aborting
restores `p`'s transactional variable `t` to its pre-removal value, while
the regular variable `r` remains removed: the regular-variable map is
resurrected empty. -/
theorem claimC5_remove_package_abort :
    (variable_get "p" "t" 23 true (removePackageAbort 10 20)).1 = .ok (some 20) ∧
    (variable_get "p" "r" 23 false (removePackageAbort 10 20)).1 = .ok none ∧
    (lookupPackage (removePackageAbort 10 20) "p").map
      (fun p => (p.varHashRegular, (headPackState p).is_valid)) = some ([], true) ∧
    (lookupTransVar (removePackageAbort 10 20) "p" "t").map Variable.states =
      some [{ level := 1, is_valid := true, value := .scalar (some 20) }] := by
  decide

/-- Claim C6 (counterexample): `x` exists (it is registered in `p`'s
transactional map) and setting it with a conflicting value type fails
with the type-mismatch error, but the call does NOT leave all state as
before: because `p` had been removed earlier in the transaction,
`getPackageByName(create)` resurrects the package and re-stamps `x`'s
history before the type check raises. -/
theorem claimC6_counterexample :
    (lookupTransVar removedPackagePending "p" "x").isSome = true ∧
    (variable_set "p" "x" 99 (some 1) true removedPackagePending).1 = .error .typeMismatch ∧
    (variable_set "p" "x" 99 (some 1) true removedPackagePending).2 ≠ removedPackagePending := by
  decide

/-- Claim C6 (amended): for every existing variable whose package is
currently valid, a set or access supplying a conflicting transactional
flag or value type fails with the corresponding distinct error — kind
mismatch for the flag, type mismatch for the value type — and performs no
mutation at all: the session is returned exactly as it was.  (When the
package was removed earlier in the transaction, the failing set first
resurrects it, as the counterexample shows.) -/
theorem claimC6_amended (s : Session) (pkg vn : Name) (pack : Package) (v : Variable)
    (typid typid' : Nat) (tr : Bool) (val : Option Int)
    (hplen : pkg.utf8ByteSize < NAMEDATALEN - 1)
    (hvlen : vn.utf8ByteSize < NAMEDATALEN - 1)
    (hpack : lookupPackage s pkg = some pack)
    (hvalid : (headPackState pack).is_valid = true)
    (hv : aget vn (pack_htab pack tr) = some v)
    (hopp : aget vn (pack_htab pack (!tr)) = none)
    (htyp : v.typid = typid)
    (hne : typid' ≠ typid) :
    variable_set pkg vn typid' val tr s = (.error .typeMismatch, s) ∧
    variable_set pkg vn typid val (!tr) s = (.error .kindMismatch, s) ∧
    variable_get pkg vn typid' true s = (.error .typeMismatch, s) ∧
    variable_get pkg vn typid' false s = (.error .typeMismatch, s) := by
  have hgp := getPackageByName_found_valid s pkg pack true false hplen hpack hvalid
  have hfound := lookupVarEither_of_htab s pkg vn pack v tr hpack hv hopp
  have hvne : v.typid ≠ typid' := by
    rw [htyp]
    exact Ne.symm hne
  refine ⟨?_, ?_, ?_, ?_⟩
  · unfold variable_set
    simp only [bind_apply, hgp]
    simp only [bind_apply,
      createVariableInternal_typeMismatch s pkg vn pack v typid' tr hvlen hpack hv hopp hvne]
  · unfold variable_set
    simp only [bind_apply, hgp]
    have hrev : aget vn (pack_htab pack (!(!tr))) = some v := by
      rw [Bool.not_not]
      exact hv
    simp only [bind_apply,
      createVariableInternal_kindMismatch s pkg vn pack v typid (!tr) hvlen hpack hrev]
  · unfold variable_get
    simp only [bind_apply,
      getPackageByName_found_valid s pkg pack false true hplen hpack hvalid]
    simp only [bind_apply,
      getVariableInternal_typeMismatch s pkg vn pack v tr typid' true hvlen hpack hfound hvne]
  · unfold variable_get
    simp only [bind_apply,
      getPackageByName_found_valid s pkg pack false false hplen hpack hvalid]
    simp only [bind_apply,
      getVariableInternal_typeMismatch s pkg vn pack v tr typid' false hvlen hpack hfound hvne]

/-- Claim C6 (amended), witnessed on the session left by the nested
set/abort scenario — `x` exists as a transactional int variable in the
valid package `p`; all four conflicting calls fail with the distinct
error and leave the session untouched. -/
theorem claimC6_amended_witness :
    variable_set "p" "x" 99 (some 0) true (nestedSetAbort 1 2) =
      (.error .typeMismatch, nestedSetAbort 1 2) ∧
    variable_set "p" "x" 23 (some 0) false (nestedSetAbort 1 2) =
      (.error .kindMismatch, nestedSetAbort 1 2) ∧
    variable_get "p" "x" 99 true (nestedSetAbort 1 2) =
      (.error .typeMismatch, nestedSetAbort 1 2) ∧
    variable_get "p" "x" 99 false (nestedSetAbort 1 2) =
      (.error .typeMismatch, nestedSetAbort 1 2) :=
  claimC6_amended (nestedSetAbort 1 2) "p" "x"
    { varHashRegular := [],
      varHashTransact := [("x",
        { typid := 23, is_transactional := true,
          states := [{ level := 1, is_valid := true, value := .scalar (some 1) }] })],
      packHistory := [{ level := 1, is_valid := true }] }
    { typid := 23, is_transactional := true,
      states := [{ level := 1, is_valid := true, value := .scalar (some 1) }] }
    23 99 true (some 0)
    (by decide) (by decide) (by decide) (by decide) (by decide) (by decide) (by decide)
    (by decide)

/-- Claim C7 (counterexample): with `strict = false`, a lookup of a
variable whose current state is invalid does not return an absent result:
`getVariableInternal` returns the invalidated variable and `variable_get`
reads its stale value (5), where the claim requires an empty/absent
result. -/
theorem claimC7_counterexample :
    variable_get "p" "x" 23 false removedVariablePending =
      (.ok (some 5), removedVariablePending) ∧
    (lookupTransVar removedVariablePending "p" "x").map
      (fun v => (headVarState v).is_valid) = some false ∧
    (Except.ok (some 5) : Except PgError (Option Int)) ≠ .ok none := by
  decide

/-- Claim C7 (amended): a strict lookup fails with the not-found error
when the name is absent or the object's current state is invalid; a
non-strict lookup returns an absent result for an absent variable name,
and for an absent or invalidated package — but a variable whose current
state is invalid is returned as-is under `strict = false`, its stale
value still readable, instead of an absent result. -/
theorem claimC7_amended (s : Session) (pkg vn : Name) (typid : Nat)
    (hplen : pkg.utf8ByteSize < NAMEDATALEN - 1)
    (hvlen : vn.utf8ByteSize < NAMEDATALEN - 1) :
    (∀ pack, lookupPackage s pkg = some pack → (headPackState pack).is_valid = true →
      aget vn pack.varHashRegular = none → aget vn pack.varHashTransact = none →
      variable_get pkg vn typid true s = (.error .varNotFound, s) ∧
      variable_get pkg vn typid false s = (.ok none, s)) ∧
    (∀ pack v flag, lookupPackage s pkg = some pack →
      (headPackState pack).is_valid = true →
      lookupVarEither s pkg vn = some (v, flag) → v.typid = typid →
      (headVarState v).is_valid = false →
      variable_get pkg vn typid true s = (.error .varNotFound, s) ∧
      variable_get pkg vn typid false s =
        (.ok (match (headVarState v).value with
              | .scalar x => x
              | .record _ => none), s)) ∧
    (lookupPackage s pkg = none →
      variable_get pkg vn typid true s = (.error .pkgNotFound, s) ∧
      variable_get pkg vn typid false s = (.ok none, s)) ∧
    (∀ pack, lookupPackage s pkg = some pack → (headPackState pack).is_valid = false →
      variable_get pkg vn typid true s = (.error .pkgNotFound, s) ∧
      variable_get pkg vn typid false s = (.ok none, s)) := by
  refine ⟨?_, ?_, ?_, ?_⟩
  · intro pack hpack hvalid hreg htr
    have hmiss : lookupVarEither s pkg vn = none := by
      unfold lookupVarEither
      rw [hpack]
      dsimp only
      rw [hreg]
      dsimp only
      rw [htr]
    have habs := getVariableInternal_absent s pkg vn pack typid hvlen hpack hmiss
    constructor
    · unfold variable_get
      simp only [bind_apply,
        getPackageByName_found_valid s pkg pack false true hplen hpack hvalid]
      simp only [bind_apply, habs.1]
    · unfold variable_get
      simp only [bind_apply,
        getPackageByName_found_valid s pkg pack false false hplen hpack hvalid]
      simp only [bind_apply, habs.2, pure_apply]
  · intro pack v flag hpack hvalid hfound htyp hinv
    have hinvv := getVariableInternal_invalid s pkg vn pack v flag typid hvlen hpack hfound
      htyp hinv
    constructor
    · unfold variable_get
      simp only [bind_apply,
        getPackageByName_found_valid s pkg pack false true hplen hpack hvalid]
      simp only [bind_apply, hinvv.1]
    · unfold variable_get
      simp only [bind_apply,
        getPackageByName_found_valid s pkg pack false false hplen hpack hvalid]
      simp only [bind_apply, hinvv.2, pure_apply]
  · intro hnone
    have habs := getPackageByName_absent s pkg hplen hnone
    constructor
    · unfold variable_get
      simp only [bind_apply, habs.1]
    · unfold variable_get
      simp only [bind_apply, habs.2, pure_apply]
  · intro pack hpack hinv
    have hinvp := getPackageByName_invalid s pkg pack hplen hpack hinv
    constructor
    · unfold variable_get
      simp only [bind_apply, hinvp.1]
    · unfold variable_get
      simp only [bind_apply, hinvp.2, pure_apply]

/-- Claim C7 (amended), witnessed: an absent variable name is absent
non-strictly and an error strictly; the invalidated `x` is returned with
its stale value under `strict = false`; an unknown package is absent
non-strictly; an invalidated package is absent non-strictly. -/
theorem claimC7_amended_witness :
    (variable_get "p" "y" 23 true (nestedSetAbort 1 2) =
      (.error .varNotFound, nestedSetAbort 1 2) ∧
     variable_get "p" "y" 23 false (nestedSetAbort 1 2) =
      (.ok none, nestedSetAbort 1 2)) ∧
    variable_get "p" "x" 23 false removedVariablePending =
      (.ok (some 5), removedVariablePending) ∧
    variable_get "q" "y" 23 false initialSession = (.ok none, initialSession) ∧
    variable_get "p" "x" 23 false removedPackagePending =
      (.ok none, removedPackagePending) :=
  ⟨(claimC7_amended (nestedSetAbort 1 2) "p" "y" 23 (by decide) (by decide)).1
      { varHashRegular := [],
        varHashTransact := [("x",
          { typid := 23, is_transactional := true,
            states := [{ level := 1, is_valid := true, value := .scalar (some 1) }] })],
        packHistory := [{ level := 1, is_valid := true }] }
      (by decide) (by decide) (by decide) (by decide),
   ((claimC7_amended removedVariablePending "p" "x" 23 (by decide) (by decide)).2.1
      { varHashRegular := [],
        varHashTransact := [("x",
          { typid := 23, is_transactional := true,
            states := [{ level := 2, is_valid := false, value := .scalar (some 5) },
                       { level := 1, is_valid := true, value := .scalar (some 5) }] })],
        packHistory := [{ level := 1, is_valid := true }] }
      { typid := 23, is_transactional := true,
        states := [{ level := 2, is_valid := false, value := .scalar (some 5) },
                   { level := 1, is_valid := true, value := .scalar (some 5) }] }
      true (by decide) (by decide) (by decide) (by decide) (by decide)).2,
   ((claimC7_amended initialSession "q" "y" 23 (by decide) (by decide)).2.2.1
      (by decide)).2,
   ((claimC7_amended removedPackagePending "p" "x" 23 (by decide) (by decide)).2.2.2
      { varHashRegular := [],
        varHashTransact := [("x",
          { typid := 23, is_transactional := true,
            states := [{ level := 1, is_valid := true, value := .scalar (some 5) }] })],
        packHistory := [{ level := 2, is_valid := false }, { level := 1, is_valid := true }] }
      (by decide) (by decide)).2⟩

/-- Claim C8: when a top-level commit or abort (the changes stack holds a
frame at nesting level 1) leaves the package registry empty, the whole
module state — registry, changes stack, last-touched cache — is torn down
to the initial session, so a subsequent creation behaves exactly as
first-ever use. -/
theorem claimC8_teardown (s : Session) (csn : ChangesStackNode) (rest : List ChangesStackNode)
    (hlevel : s.level = 1) (hstack : s.changesStack = some (csn :: rest)) :
    ((commitTopLevelP s).packagesHash.getD [] = [] → commitTopLevelP s = initialSession) ∧
    ((abortTopLevelP s).packagesHash.getD [] = [] → abortTopLevelP s = initialSession) := by
  have key : ∀ act : Action, (processChangesP act s).packagesHash.getD [] = [] →
      processChangesP act s = initialSession := by
    intro act hempty
    unfold processChangesP at hempty ⊢
    rw [hstack] at hempty ⊢
    dsimp only at hempty ⊢
    refine finalizeChangesP_teardown_of_level _ ?_ hempty
    rw [level_foldl _
      (fun t x => by cases act <;> simp [level_rollbackPackStepP, level_releasePackStepP])]
    rw [level_foldl _
      (fun t x => by cases act <;> simp [level_rollbackVarStepP, level_releaseVarStepP])]
    exact hlevel
  constructor
  · intro h
    unfold commitTopLevelP at h ⊢
    rw [hstack] at h ⊢
    exact key .release h
  · intro h
    unfold abortTopLevelP at h ⊢
    rw [hstack] at h ⊢
    exact key .rollback h

/-- Claim C8, witnessed: committing at top level after the only package
was created and removed empties the registry and yields the initial
session; an abort whose frame empties onto an already-empty registry does
the same. -/
theorem claimC8_teardown_witness :
    commitTopLevelP emptiedRegistryPending = initialSession ∧
    abortTopLevelP abortTeardownSession = initialSession :=
  ⟨(claimC8_teardown emptiedRegistryPending
      { changedVarsList := [("p", "x")], changedPacksList := ["p"] } []
      (by decide) (by decide)).1 (by decide),
   (claimC8_teardown abortTeardownSession emptyFrame [] rfl rfl).2 (by decide)⟩

/-- Claim C10 (amended): every modelled name-taking operation rejects a
name of `NAMEDATALEN - 1` (63) bytes or more with the "name is too long"
error; the package name is validated before any state is consulted or
modified (the session is returned untouched), while a too-long variable
name is rejected only after the package has been resolved or created;
names of at most 62 bytes are accepted. -/
theorem claimC10_amended :
    (∀ (s : Session) (pkg vn : Name) (t : Nat) (val : Option Int) (tr : Bool),
      NAMEDATALEN - 1 ≤ pkg.utf8ByteSize →
      variable_set pkg vn t val tr s = (.error .nameTooLong, s) ∧
      variable_get pkg vn t tr s = (.error .nameTooLong, s) ∧
      remove_package pkg s = (.error .nameTooLong, s)) ∧
    (∀ (s : Session) (pkg vn : Name) (t : Nat) (val : Option Int) (tr : Bool),
      pkg.utf8ByteSize < NAMEDATALEN - 1 → NAMEDATALEN - 1 ≤ vn.utf8ByteSize →
      (variable_set pkg vn t val tr s).1 = .error .nameTooLong) ∧
    (∀ (pkg vn : Name) (t : Nat) (val : Option Int) (tr : Bool),
      pkg.utf8ByteSize < NAMEDATALEN - 1 → vn.utf8ByteSize < NAMEDATALEN - 1 →
      (variable_set pkg vn t val tr initialSession).1 = .ok ()) := by
  refine ⟨?_, ?_, ?_⟩
  · intro s pkg vn t val tr h
    refine ⟨?_, ?_, ?_⟩
    · unfold variable_set getPackageByName
      simp only [bind_apply, getKeyFromName_tooLong pkg s h]
    · unfold variable_get getPackageByName
      simp only [bind_apply, getKeyFromName_tooLong pkg s h]
    · unfold remove_package getPackageByName
      simp only [bind_apply, getKeyFromName_tooLong pkg s h]
  · intro s pkg vn t val tr hp hv
    rcases hr : getPackageByName pkg true false s with ⟨e, s'⟩
    have h1 : e = .ok (some pkg) := by
      have := getPackageByName_create_ok s pkg hp
      rw [hr] at this
      exact this
    subst h1
    unfold variable_set
    simp only [bind_apply, hr]
    unfold createVariableInternal
    simp only [bind_apply, getKeyFromName_tooLong vn s' hv]
  · intro pkg vn t val tr hp hv
    unfold variable_set getPackageByName findOrCreatePackage ensurePackagesHashExists
      createVariableInternal finishCreateVariable
    cases tr <;>
      simp [bind_apply, modifyS_apply, getS_apply, pure_apply,
        getKeyFromName_ok pkg _ hp, getKeyFromName_ok vn _ hv,
        initialSession, aget, aset, amod, aget_amod_self, lookupPackage, lookupTransVar,
        pack_htab, addToChangesPackP, addToChangesVarP, prepareChangesStackP,
        isChangedInCurrentTrans, modifyPackageP, modifyVarInP, newPackage, newVariable,
        headPackState, headVarState, pushPackToTopFrame, pushVarToTopFrame, emptyFrame,
        modifyTransVarP, setPackHeadLevel, setPackHead, setPackHeadValid,
        setVarHeadValid, setVarHeadLevel, setVarHead, setVarHeadScalar]

/-- Claim C10 (amended), witnessed at a 63-byte and a 62-byte name. -/
theorem claimC10_amended_witness :
    variable_set longName "x" 23 (some 1) true initialSession =
      (.error .nameTooLong, initialSession) ∧
    (variable_set "p" longName 23 (some 1) true initialSession).1 = .error .nameTooLong ∧
    (variable_set "p" longOkName 23 (some 1) true initialSession).1 = .ok () :=
  ⟨(claimC10_amended.1 initialSession longName "x" 23 (some 1) true (by decide)).1,
   claimC10_amended.2.1 initialSession "p" longName 23 (some 1) true (by decide) (by decide),
   claimC10_amended.2.2 "p" longOkName 23 (some 1) true (by decide) (by decide)⟩

/-- Claim C9: after a record variable first created by `variable_insert`
inside a subtransaction is destroyed by the subtransaction's abort, the
last-touched cache still names it (`processChanges` resets the cache only
on full teardown): the cache is stale, the registry no longer holds the
variable, the cached fast path of the next `variable_insert` dereferences
the freed object (modelled as a skip), and the same operation resolved
through the registry instead recreates the variable — the cached path and
the registry path disagree. -/
theorem claimC9_stale_cache :
    staleCacheScenario.lastPackage = some "p" ∧
    staleCacheScenario.lastVariable = some "v" ∧
    lookupTransVar staleCacheScenario "p" "v" = none ∧
    (variable_insert "p" "v" 8 true staleCacheScenario).2 = staleCacheScenario ∧
    (variable_insert_nocache "p" "v" 8 true staleCacheScenario).2 ≠
      (variable_insert "p" "v" 8 true staleCacheScenario).2 := by
  decide

/-- Claim C10 (counterexample): `variable_set` with a valid package name
and a 63-byte variable name fails with the "name is too long" error, but
not before state is modified: the package has already been created by the
time the variable name is validated. -/
theorem claimC10_counterexample :
    (variable_set "p" longName 23 (some 1) true initialSession).1 = .error .nameTooLong ∧
    (lookupPackage (variable_set "p" longName 23 (some 1) true initialSession).2 "p").isSome
      = true ∧
    (variable_set "p" longName 23 (some 1) true initialSession).2 ≠ initialSession := by
  decide

end PgVariables
